import Mathlib

/-!
# Polyclone2 — verification of the simulation core

Shallow embedding of the deterministic simulation core of Polyclone2
(combat resolution, city economy, technology tree, grid model, movement
reachability, game state commands and seeded map generation), together
with theorems settling the specification claims.

Modelling conventions:
* JavaScript `number` values are modelled as `Int` where the program only
  ever stores integers (coordinates, star balances, levels) and as `Rat`
  where fractional arithmetic occurs (hit points, combat stats, movement
  budgets, random draws).  `Math.round` is `jsRound`, `Math.floor` is
  `Int.floor`, `Math.ceil` is `Int.ceil`.
* A JavaScript `Map` is an insertion-ordered association list: `set`
  replaces in place when the key is present and appends otherwise;
  iteration follows list order.  A JavaScript `Set` is an
  insertion-ordered duplicate-free list.
* The string key `"x,y"` used by the source to index visited/reachable
  tiles is modelled by the pair `(x, y)`; the source encoding is
  injective, so the two are interchangeable.
-/

namespace Polyclone

/-- Terrain types present on the game map (`types.ts`, `TileType`). -/
inductive TileType where
  | field
  | forest
  | mountain
  | shallowWater
  | ocean
deriving DecidableEq, Repr

/-- Skills that units can possess (`types.ts`, `UnitSkill`). -/
inductive UnitSkill where
  | dash
  | escape
  | persist
  | creep
  | air
  | fortify
  | stiff
  | splash
  | convert
  | heal
  | hide
  | infiltrate
  | scout
  | carry
  | static
  | water
deriving DecidableEq, Repr

/-- All unit types (`types.ts`, `UnitType`). -/
inductive UnitType where
  | warrior
  | archer
  | defender
  | rider
  | swordsman
  | mindBender
  | catapult
  | knight
  | cloak
  | giant
  | raft
  | scout
  | rammer
  | bomber
deriving DecidableEq, Repr

/-- The four starter tribes plus `neutral` (`types.ts`, `TribeId`). -/
inductive TribeId where
  | xinxi
  | imperius
  | bardur
  | oumaji
  | neutral
deriving DecidableEq, Repr

/-- Game difficulty (`types.ts`, `Difficulty`). -/
inductive Difficulty where
  | easy
  | normal
  | hard
  | crazy
deriving DecidableEq, Repr

/-- Win condition mode (`types.ts`, `WinCondition`). -/
inductive WinCondition where
  | perfection
  | domination
deriving DecidableEq, Repr

/-- All 25 technologies (`types.ts`, `TechId`). -/
inductive TechId where
  | climbing
  | hunting
  | organization
  | riding
  | fishing
  | mining
  | meditation
  | archery
  | forestry
  | farming
  | strategy
  | roads
  | freeSpirit
  | sailing
  | ramming
  | smithery
  | philosophy
  | spiritualism
  | mathematics
  | construction
  | diplomacy
  | trade
  | chivalry
  | navigation
  | aquatism
deriving DecidableEq, Repr

/-- A discrete grid coordinate (`types.ts`, `Coord`). -/
structure Coord where
  x : Int
  y : Int
deriving DecidableEq, Repr

/-- A tile of the map (`types.ts`, `Tile`).  The optional
resource/building/unit/owner fields are never read by the verified code
paths and are omitted. -/
structure Tile where
  type : TileType
  x : Int
  y : Int
deriving DecidableEq, Repr

/-- A live unit on the board (`types.ts`, `UnitInstance`).  The TypeScript
field `def` is spelled `defense` here because `def` is a Lean keyword.
The optional `carriedUnit` field is never read by the verified code paths
and is omitted. -/
structure UnitInstance where
  id : String
  type : UnitType
  owner : Nat
  x : Int
  y : Int
  currentHp : Rat
  maxHp : Rat
  atk : Rat
  defense : Rat
  movement : Int
  range : Int
  kills : Nat
  isVeteran : Bool
  hasMoved : Bool
  hasAttacked : Bool
  isHidden : Bool
  skills : List UnitSkill
deriving DecidableEq, Repr

/-- A live city on the board (`types.ts`, `CityInstance`). -/
structure CityInstance where
  owner : TribeId
  position : Coord
  name : String
  level : Int
  population : Int
  isCapital : Bool
  hasWall : Bool
  hasWorkshop : Bool
  hasPark : Bool
  borderSize : Int
deriving DecidableEq, Repr

/-- Base stats of a unit type (`types.ts`, `UnitStats`). -/
structure UnitStats where
  cost : Option Int
  hp : Option Rat
  atk : Rat
  defense : Rat
  movement : Int
  range : Int
  skills : List UnitSkill
deriving DecidableEq, Repr

/-- Game construction configuration (`types.ts`, `GameConfig`). -/
structure GameConfig where
  mapSize : Int
  waterLevel : Rat
  tribes : List TribeId
  difficulty : Difficulty
  winCondition : WinCondition
  turnLimit : Option Int
deriving DecidableEq, Repr

/-- JavaScript `Math.round`: round to nearest, ties toward positive
infinity, which agrees with `⌊q + 1/2⌋` at every rational. -/
def jsRound (q : Rat) : Int := ⌊q + 1/2⌋

-- ---------------------------------------------------------------------------
-- Combat.ts
-- ---------------------------------------------------------------------------

/-- Result of resolving a single attack (`Combat.ts`, `CombatResult`). -/
structure CombatResult where
  damageToDefender : Int
  damageToAttacker : Int
  defenderKilled : Bool
  attackerKilled : Bool
  attacker : UnitInstance
  defender : UnitInstance
deriving DecidableEq, Repr

/-- Defense bonus multiplier of a terrain type
(`Combat.ts`, `getDefenseBonusForTerrain`). -/
def getDefenseBonusForTerrain (terrain : TileType) : Rat :=
  match terrain with
  | .field => 1
  | .forest => 3/2
  | .mountain => 3/2
  | .shallowWater => 3/2
  | .ocean => 3/2

/-- Defense bonus multiplier for a city (`Combat.ts`, `getCityDefenseBonus`). -/
def getCityDefenseBonus (hasWall : Bool) : Rat :=
  if hasWall then 4 else 3/2

/-- Resolves combat between an attacker and a defender
(`Combat.ts`, `resolveCombat`). -/
def resolveCombat (attacker defender : UnitInstance) (defenseBonus : Rat)
    (attackerDistance : Int) : CombatResult :=
  let attackForce := attacker.atk * (attacker.currentHp / attacker.maxHp)
  let defenseForce := defender.defense * (defender.currentHp / defender.maxHp) * defenseBonus
  let totalDamage := attackForce + defenseForce
  if totalDamage = 0 then
    { damageToDefender := 0
      damageToAttacker := 0
      defenderKilled := false
      attackerKilled := false
      attacker := attacker
      defender := defender }
  else
    let attackResult := jsRound ((attackForce / totalDamage) * attacker.atk * (9/2))
    let defenseResult := jsRound ((defenseForce / totalDamage) * defender.defense * (9/2))
    let defenderNewHp := defender.currentHp - (attackResult : Rat)
    let defenderKilled : Bool := decide (defenderNewHp ≤ 0)
    let hasRetaliation : Bool := !defenderKilled
      && decide (attackerDistance ≤ defender.range)
      && !(decide (UnitSkill.stiff ∈ defender.skills))
      && decide (defenseResult > 0)
    let damageToAttacker := if hasRetaliation then defenseResult else 0
    let attackerNewHp := attacker.currentHp - (damageToAttacker : Rat)
    let attackerKilled : Bool := decide (attackerNewHp ≤ 0)
    let newKills := if defenderKilled then attacker.kills + 1 else attacker.kills
    { damageToDefender := attackResult
      damageToAttacker := damageToAttacker
      defenderKilled := defenderKilled
      attackerKilled := attackerKilled
      attacker := { attacker with
        currentHp := max 0 attackerNewHp
        kills := newKills
        hasAttacked := true }
      defender := { defender with currentHp := max 0 defenderNewHp } }

/-- Veteran promotion eligibility (`Combat.ts`, `canPromote`). -/
def canPromote (u : UnitInstance) : Bool :=
  if u.isVeteran then false
  else if UnitSkill.static ∈ u.skills then false
  else decide (u.kills ≥ 3)

/-- Promote a unit to veteran status (`Combat.ts`, `promoteToVeteran`). -/
def promoteToVeteran (u : UnitInstance) : UnitInstance :=
  if ¬ (canPromote u = true) then u
  else
    let newMaxHp := u.maxHp + 5
    { u with maxHp := newMaxHp, currentHp := newMaxHp, isVeteran := true }

-- ---------------------------------------------------------------------------
-- Specification-side combat formulas (written from the spec text, for the
-- refinement statements of claims C3/C4)
-- ---------------------------------------------------------------------------

/-- Spec formula: `attackForce = ATK · (curHP/maxHP)`. -/
def specAttackForce (a : UnitInstance) : Rat :=
  a.atk * (a.currentHp / a.maxHp)

/-- Spec formula: `defenseForce = DEF · (curHP/maxHP) · defenseBonus`. -/
def specDefenseForce (d : UnitInstance) (defenseBonus : Rat) : Rat :=
  d.defense * (d.currentHp / d.maxHp) * defenseBonus

/-- Spec formula: `damageToDefender = round((attackForce/total) · ATK · 4.5)`. -/
def specAttackDamage (a d : UnitInstance) (defenseBonus : Rat) : Int :=
  jsRound ((specAttackForce a / (specAttackForce a + specDefenseForce d defenseBonus))
    * a.atk * (9/2))

/-- Spec formula: the rounded retaliation value
`round((defenseForce/total) · DEF · 4.5)`, from pre-attack HP. -/
def specRetaliationValue (a d : UnitInstance) (defenseBonus : Rat) : Int :=
  jsRound ((specDefenseForce d defenseBonus / (specAttackForce a + specDefenseForce d defenseBonus))
    * d.defense * (9/2))

/-- Spec condition: the defender survives the attack. -/
def specDefenderSurvives (a d : UnitInstance) (defenseBonus : Rat) : Prop :=
  0 < d.currentHp - (specAttackDamage a d defenseBonus : Rat)

instance (a d : UnitInstance) (b : Rat) : Decidable (specDefenderSurvives a d b) := by
  unfold specDefenderSurvives; infer_instance

/-- Spec retaliation: applied if and only if the defender survives, the
attacker is within the defender's range, the defender lacks the
no-retaliation (Stiff) trait, and the rounded value is positive;
otherwise exactly 0. -/
def specRetaliationDamage (a d : UnitInstance) (defenseBonus : Rat)
    (dist : Int) : Int :=
  if specDefenderSurvives a d defenseBonus
      ∧ dist ≤ d.range
      ∧ UnitSkill.stiff ∉ d.skills
      ∧ 0 < specRetaliationValue a d defenseBonus then
    specRetaliationValue a d defenseBonus
  else 0

-- ---------------------------------------------------------------------------
-- City.ts
-- ---------------------------------------------------------------------------

/-- Level-up reward choice (`types.ts`, `CityLevelRewardOption`).  The
fixed `description` strings carry no behavior and are omitted. -/
inductive CityLevelRewardOption where
  | workshop
  | explorer
  | cityWall
  | stars (amount : Int)
  | borderGrowth
  | population (amount : Int)
  | park
  | superUnit (unitType : UnitType)
deriving DecidableEq, Repr

namespace City

/-- Population required to reach a given level, index = level
(`City.ts`, `POP_THRESHOLDS`). -/
def POP_THRESHOLDS : List Int := [0, 0, 2, 3, 4, 5]

/-- Population threshold to reach the next level (`City.ts`,
`getPopToNextLevel`). -/
def getPopToNextLevel (currentLevel : Int) : Int :=
  if currentLevel < 1 then 0
  else if currentLevel < 6 then
    (POP_THRESHOLDS.get? (currentLevel.toNat + 1)).getD (currentLevel + 1)
  else currentLevel + 1

/-- Create a new city instance (`City.ts`, `createCity`). -/
def createCity (owner : TribeId) (position : Coord) (name : String)
    (isCapital : Bool) : CityInstance :=
  { owner := owner
    position := position
    name := name
    level := 1
    population := 0
    isCapital := isCapital
    hasWall := false
    hasWorkshop := false
    hasPark := false
    borderSize := 3 }

/-- Add population to a city (`City.ts`, `addPopulation`). -/
def addPopulation (city : CityInstance) (amount : Int) : CityInstance :=
  { city with population := city.population + amount }

/-- Whether a city is ready to level up (`City.ts`, `canLevelUp`). -/
def canLevelUp (city : CityInstance) : Bool :=
  decide (city.population ≥ getPopToNextLevel city.level)

/-- Level up a city and apply the chosen reward (`City.ts`, `levelUp`). -/
def levelUp (city : CityInstance) (chosenReward : CityLevelRewardOption) :
    CityInstance :=
  if ¬ (canLevelUp city = true) then city
  else
    let needed := getPopToNextLevel city.level
    let updated := { city with
      level := city.level + 1
      population := city.population - needed }
    match chosenReward with
    | .workshop => { updated with hasWorkshop := true }
    | .cityWall => { updated with hasWall := true }
    | .borderGrowth => { updated with borderSize := 5 }
    | .park => { updated with hasPark := true }
    | .population amount =>
        { updated with population := updated.population + amount }
    | _ => updated

/-- Star income of a city (`City.ts`, `calculateCityIncome`). -/
def calculateCityIncome (city : CityInstance) : Int :=
  city.level + (if city.isCapital then 1 else 0)
    + (if city.hasWorkshop then 1 else 0)
    + (if city.hasPark then 1 else 0)

/-- Transfer city ownership on capture (`City.ts`, `captureCity`): clears
the capital, wall, workshop and park flags, keeps level and population. -/
def captureCity (city : CityInstance) (newOwner : TribeId) : CityInstance :=
  { city with
    owner := newOwner
    isCapital := false
    hasWall := false
    hasWorkshop := false
    hasPark := false }

end City

-- ---------------------------------------------------------------------------
-- TechTree.ts
-- ---------------------------------------------------------------------------

/-- Building types (`types.ts`, `BuildingType`). -/
inductive BuildingType where
  | farm
  | mine
  | lumberHut
  | sawmill
  | windmill
  | forge
  | market
  | port
  | road
  | bridge
  | temple
  | forestTemple
  | mountainTemple
  | waterTemple
  | monument
deriving DecidableEq, Repr

/-- Resource types (`types.ts`, `ResourceType`). -/
inductive ResourceType where
  | fruit
  | animal
  | fish
  | crop
  | metal
  | starfish
deriving DecidableEq, Repr

/-- One thing unlocked by a technology (`types.ts`, `TechUnlock`). -/
inductive TechUnlock where
  | unit (unitType : UnitType)
  | building (buildingType : BuildingType)
  | action (a : String)
  | ability (a : String)
  | resource (resourceType : ResourceType)
deriving DecidableEq, Repr

/-- Static definition of a technology (`types.ts`, `TechDefinition`). -/
structure TechDefinition where
  id : TechId
  name : String
  tier : Int
  prerequisite : Option TechId
  unlocks : List TechUnlock
deriving DecidableEq, Repr

/-- Static tech definition lookup (`TechTree.ts`, `TECH_TREE` together with
`TECH_MAP`/`getTechDefinition`).  `TechId` is a closed type, so the
"Unknown tech" throw of the source is unreachable and the lookup is
total. -/
def getTechDefinition : TechId → TechDefinition
  | .climbing => ⟨.climbing, "Climbing", 1, none,
      [.ability "Mountain movement", .ability "Mountain defense bonus", .resource .metal]⟩
  | .hunting => ⟨.hunting, "Hunting", 1, none,
      [.action "Hunt Animals (+1 pop, 2 stars)", .resource .animal]⟩
  | .organization => ⟨.organization, "Organization", 1, none,
      [.action "Harvest Fruit (+1 pop, 2 stars)", .resource .crop]⟩
  | .riding => ⟨.riding, "Riding", 1, none, [.unit .rider]⟩
  | .fishing => ⟨.fishing, "Fishing", 1, none,
      [.action "Fish (+1 pop, 2 stars)", .building .port, .unit .raft,
       .ability "Shallow water movement"]⟩
  | .mining => ⟨.mining, "Mining", 2, some .climbing, [.building .mine]⟩
  | .meditation => ⟨.meditation, "Meditation", 2, some .climbing, [.building .mountainTemple]⟩
  | .archery => ⟨.archery, "Archery", 2, some .hunting,
      [.unit .archer, .ability "Forest defense bonus"]⟩
  | .forestry => ⟨.forestry, "Forestry", 2, some .hunting,
      [.building .lumberHut, .action "Clear Forest (+1 star)"]⟩
  | .farming => ⟨.farming, "Farming", 2, some .organization, [.building .farm]⟩
  | .strategy => ⟨.strategy, "Strategy", 2, some .organization,
      [.unit .defender, .ability "Peace Treaty"]⟩
  | .roads => ⟨.roads, "Roads", 2, some .riding,
      [.building .road, .ability "City connections"]⟩
  | .freeSpirit => ⟨.freeSpirit, "Free Spirit", 2, some .riding,
      [.building .temple, .action "Disband unit (refund half cost)"]⟩
  | .sailing => ⟨.sailing, "Sailing", 2, some .fishing,
      [.unit .scout, .ability "Ocean movement"]⟩
  | .ramming => ⟨.ramming, "Ramming", 2, some .fishing, [.unit .rammer]⟩
  | .smithery => ⟨.smithery, "Smithery", 3, some .mining,
      [.unit .swordsman, .building .forge]⟩
  | .philosophy => ⟨.philosophy, "Philosophy", 3, some .meditation,
      [.unit .mindBender, .ability "Literacy (-33 percent tech costs)"]⟩
  | .spiritualism => ⟨.spiritualism, "Spiritualism", 3, some .archery,
      [.building .forestTemple, .action "Grow Forest (5 stars, field to forest)"]⟩
  | .mathematics => ⟨.mathematics, "Mathematics", 3, some .forestry,
      [.unit .catapult, .building .sawmill]⟩
  | .construction => ⟨.construction, "Construction", 3, some .farming,
      [.building .windmill, .action "Burn Forest (5 stars, forest to field with crop)"]⟩
  | .diplomacy => ⟨.diplomacy, "Diplomacy", 3, some .strategy,
      [.unit .cloak, .ability "Embassy (+2 SPT)", .ability "Capital Vision"]⟩
  | .trade => ⟨.trade, "Trade", 3, some .roads, [.building .market]⟩
  | .chivalry => ⟨.chivalry, "Chivalry", 3, some .freeSpirit, [.unit .knight]⟩
  | .navigation => ⟨.navigation, "Navigation", 3, some .sailing,
      [.unit .bomber, .action "Harvest Starfish (+8 stars)"]⟩
  | .aquatism => ⟨.aquatism, "Aquatism", 3, some .ramming,
      [.building .waterTemple, .ability "Ocean defense bonus"]⟩

/-- Per-player technology state (`TechTree.ts`, `PlayerTechState`): the
`researched` JavaScript `Set` is an insertion-ordered duplicate-free
list. -/
structure PlayerTechState where
  researched : List TechId
deriving DecidableEq, Repr

namespace PlayerTechState

/-- `Set.add`: append if not yet present. -/
def addResearched (s : PlayerTechState) (id : TechId) : PlayerTechState :=
  if id ∈ s.researched then s else { researched := s.researched ++ [id] }

/-- Constructor from starting techs (`TechTree.ts`, `PlayerTechState`
constructor). -/
def init (startingTechs : List TechId) : PlayerTechState :=
  startingTechs.foldl addResearched ⟨[]⟩

/-- Whether a tech has been researched (`hasResearched`). -/
def hasResearched (s : PlayerTechState) (id : TechId) : Bool :=
  decide (id ∈ s.researched)

/-- Whether a tech can be researched (`canResearch`). -/
def canResearch (s : PlayerTechState) (id : TechId) : Bool :=
  if id ∈ s.researched then false
  else
    match (getTechDefinition id).prerequisite with
    | some p => decide (p ∈ s.researched)
    | none => true

/-- Research a technology (`research`); returns the success flag and the
updated state (the source mutates in place). -/
def research (s : PlayerTechState) (id : TechId) : Bool × PlayerTechState :=
  if s.canResearch id = true then (true, s.addResearched id)
  else (false, s)

/-- Whether a unit type is unlocked by some researched tech
(`isUnitUnlocked`). -/
def isUnitUnlocked (s : PlayerTechState) (unitType : UnitType) : Bool :=
  s.researched.any fun techId =>
    (getTechDefinition techId).unlocks.any fun unlock =>
      match unlock with
      | .unit u => decide (u = unitType)
      | _ => false

/-- Whether the player has the Literacy ability (`hasLiteracy`). -/
def hasLiteracy (s : PlayerTechState) : Bool :=
  decide (TechId.philosophy ∈ s.researched)

end PlayerTechState

/-- Star cost of a technology (`TechTree.ts`, `calculateTechCost`):
`tier × numCities + 4`, reduced to `ceil(cost × 2/3)` with Literacy.
The source computes `Math.ceil(baseCost * (2 / 3))` in double precision,
which coincides with the exact rational ceiling for every cost the game
can produce (the accumulated rounding error is far below the distance
from `2·baseCost/3` to the next integer). -/
def calculateTechCost (id : TechId) (numCities : Int)
    (hasLiteracy : Bool) : Int :=
  let baseCost := (getTechDefinition id).tier * numCities + 4
  if hasLiteracy then ⌈(baseCost : Rat) * (2/3)⌉ else baseCost

-- ---------------------------------------------------------------------------
-- UnitFactory.ts
-- ---------------------------------------------------------------------------

/-- Hardcoded base stats of each unit type (`UnitFactory.ts`,
`UNIT_BASE_STATS` / `getUnitBaseStats`). -/
def getUnitBaseStats : UnitType → UnitStats
  | .warrior => ⟨some 2, some 10, 2, 2, 1, 1, [.dash, .fortify]⟩
  | .archer => ⟨some 3, some 10, 2, 1, 1, 2, [.dash, .fortify]⟩
  | .defender => ⟨some 3, some 15, 1, 3, 1, 1, [.fortify]⟩
  | .rider => ⟨some 3, some 10, 2, 1, 2, 1, [.dash, .escape, .fortify]⟩
  | .swordsman => ⟨some 5, some 15, 3, 3, 1, 1, [.dash]⟩
  | .mindBender => ⟨some 5, some 10, 0, 1, 1, 1, [.heal, .convert, .stiff]⟩
  | .catapult => ⟨some 8, some 10, 4, 0, 1, 3, [.stiff]⟩
  | .knight => ⟨some 8, some 10, 7/2, 1, 3, 1, [.dash, .persist, .fortify]⟩
  | .cloak => ⟨some 8, some 5, 0, 1/2, 2, 1,
      [.hide, .creep, .infiltrate, .dash, .stiff, .scout]⟩
  | .giant => ⟨none, some 40, 5, 4, 1, 1, []⟩
  | .raft => ⟨some 0, none, 0, 1, 2, 0, [.water, .carry, .stiff]⟩
  | .scout => ⟨some 5, none, 2, 1, 3, 2, [.water, .dash, .carry, .scout]⟩
  | .rammer => ⟨some 5, none, 3, 3, 3, 1, [.water, .dash, .carry]⟩
  | .bomber => ⟨some 15, none, 3, 2, 2, 3, [.water, .carry, .splash, .stiff]⟩

/-- Creates a fresh `UnitInstance` (`UnitFactory.ts`, `createUnit`).  The
module-level `nextUnitId` counter is passed and returned explicitly; the
source increments it on every call. -/
def createUnit (type : UnitType) (owner : Nat) (x y : Int)
    (nextUnitId : Nat) : UnitInstance × Nat :=
  let stats := getUnitBaseStats type
  let hp := stats.hp.getD 10
  ({ id := "unit-" ++ toString nextUnitId
     type := type
     owner := owner
     x := x
     y := y
     currentHp := hp
     maxHp := hp
     atk := stats.atk
     defense := stats.defense
     movement := stats.movement
     range := stats.range
     kills := 0
     isVeteran := false
     hasMoved := false
     hasAttacked := false
     isHidden := false
     skills := stats.skills }, nextUnitId + 1)

-- ---------------------------------------------------------------------------
-- GameMap.ts
-- ---------------------------------------------------------------------------

/-- Sentinel cost marking impassable / consumes-all-movement terrain
(`GameMap.ts` and `GameState.ts`, `IMPASSABLE_COST`). -/
def IMPASSABLE_COST : Int := 99

/-- The rectangular tile board (`GameMap.ts`, `GameMap`).  The dense
replace-on-write `tiles[y][x]` array is modelled by the total function
`tileType`; `getTile` reconstructs the `Tile` records the source stores. -/
structure GameMap where
  width : Int
  height : Int
  tileType : Int → Int → TileType

namespace GameMap

/-- Whether `(x, y)` lies within the board (`isInBounds`). -/
def isInBounds (m : GameMap) (x y : Int) : Bool :=
  decide (0 ≤ x ∧ x < m.width ∧ 0 ≤ y ∧ y < m.height)

/-- Tile lookup, `none` out of bounds (`getTile`). -/
def getTile (m : GameMap) (x y : Int) : Option Tile :=
  if m.isInBounds x y then some ⟨m.tileType x y, x, y⟩ else none

/-- Replace the terrain type at `(x, y)`; no-op out of bounds (`setTile`). -/
def setTile (m : GameMap) (x y : Int) (type : TileType) : GameMap :=
  if m.isInBounds x y then
    { m with tileType := fun a b => if a = x ∧ b = y then type else m.tileType a b }
  else m

/-- Factory for a map pre-filled with one terrain type (`GameMap.create`). -/
def create (width height : Int) (fillType : TileType) : GameMap :=
  { width := width, height := height, tileType := fun _ _ => fillType }

/-- The eight king's-move offsets in the iteration order of the source
(`dy` outer from -1 to 1, `dx` inner from -1 to 1, skipping `(0,0)`). -/
def neighborDeltas : List (Int × Int) :=
  [(-1, -1), (0, -1), (1, -1), (-1, 0), (1, 0), (-1, 1), (0, 1), (1, 1)]

/-- All in-bounds king's-move neighbors of `(x, y)` (`getNeighbors`). -/
def getNeighbors (m : GameMap) (x y : Int) : List Tile :=
  neighborDeltas.filterMap fun d => m.getTile (x + d.1) (y + d.2)

/-- Movement cost of stepping into `to` (`getMovementCost`): 1 into field,
the impassable sentinel into anything else or out of bounds. -/
def getMovementCost (m : GameMap) (_from dest : Coord) : Int :=
  match m.getTile dest.x dest.y with
  | none => IMPASSABLE_COST
  | some dest =>
    match dest.type with
    | .field => 1
    | .forest => IMPASSABLE_COST
    | .mountain => IMPASSABLE_COST
    | .shallowWater => IMPASSABLE_COST
    | .ocean => IMPASSABLE_COST

end GameMap

-- ---------------------------------------------------------------------------
-- GameState.ts
-- ---------------------------------------------------------------------------

/-- Starting stars per player (`GameState.ts`, `STARTING_STARS`). -/
def STARTING_STARS : Int := 5

/-- AI difficulty bonus SPT (`GameState.ts`, `AI_DIFFICULTY_BONUS`). -/
def AI_DIFFICULTY_BONUS : Difficulty → Int
  | .easy => 1
  | .normal => 2
  | .hard => 3
  | .crazy => 5

/-- Starting tech per tribe (`GameState.ts`, `TRIBE_STARTING_TECH`). -/
def TRIBE_STARTING_TECH : TribeId → Option TechId
  | .xinxi => some .climbing
  | .imperius => some .organization
  | .bardur => some .hunting
  | .oumaji => some .riding
  | .neutral => none

/-- Insertion-ordered association list standing in for the JavaScript
`Map<string, UnitInstance>`: `set` replaces in place, otherwise appends. -/
def unitsSet (m : List (String × UnitInstance)) (k : String)
    (v : UnitInstance) : List (String × UnitInstance) :=
  match m with
  | [] => [(k, v)]
  | (k1, v1) :: rest =>
    if k1 = k then (k, v) :: rest else (k1, v1) :: unitsSet rest k v

/-- `Map.get`. -/
def unitsGet (m : List (String × UnitInstance)) (k : String) :
    Option UnitInstance :=
  match m with
  | [] => none
  | (k1, v1) :: rest => if k1 = k then some v1 else unitsGet rest k

/-- `Map.delete`: removes the binding, reporting whether it was present. -/
def unitsDelete (m : List (String × UnitInstance)) (k : String) :
    Bool × List (String × UnitInstance) :=
  match m with
  | [] => (false, [])
  | (k1, v1) :: rest =>
    if k1 = k then (true, rest)
    else
      let r := unitsDelete rest k
      (r.1, (k1, v1) :: r.2)

/-- The composed simulation state (`GameState.ts`, class `GameState`).
`nextUnitId` is the module-level counter of `UnitFactory.ts`, threaded
through the state so that unit creation stays a pure function. -/
structure GameState where
  map : GameMap
  config : GameConfig
  currentPlayer : Nat
  turnNumber : Int
  units : List (String × UnitInstance)
  stars : List Int
  techStates : List PlayerTechState
  cities : List CityInstance
  winner : Int
  nextUnitId : Nat

namespace GameState

/-- Number of players (`playerCount`, fixed at construction). -/
def playerCount (s : GameState) : Nat := s.config.tribes.length

/-- The constructor of `GameState`: starting stars and tribe starting
techs. -/
def init (map : GameMap) (config : GameConfig) : GameState :=
  { map := map
    config := config
    currentPlayer := 0
    turnNumber := 1
    units := []
    stars := List.replicate config.tribes.length STARTING_STARS
    techStates := config.tribes.map fun tribeId =>
      match TRIBE_STARTING_TECH tribeId with
      | some t => PlayerTechState.init [t]
      | none => PlayerTechState.init []
    cities := []
    winner := -1
    nextUnitId := 1 }

/-- Tribe for a player index (`getTribeForPlayer`); the source indexes
`config.tribes[player]`, which is always in range for in-game player
indices (an out-of-range index would produce `undefined`). -/
def getTribeForPlayer (s : GameState) (player : Nat) : Option TribeId :=
  s.config.tribes.get? player

/-- Winner query (`getWinner`): player index or -1. -/
def getWinner (s : GameState) : Int := s.winner

/-- Star balance of a player (`getStars`). -/
def getStars (s : GameState) (player : Nat) : Int :=
  (s.stars.get? player).getD 0

/-- Spend stars; fails without mutation when insufficient (`spendStars`). -/
def spendStars (s : GameState) (player : Nat) (amount : Int) :
    Bool × GameState :=
  match s.stars.get? player with
  | none => (false, s)
  | some v =>
    if v < amount then (false, s)
    else (true, { s with stars := s.stars.set player (v - amount) })

/-- Add stars to a player (`addStars`). -/
def addStars (s : GameState) (player : Nat) (amount : Int) : GameState :=
  match s.stars.get? player with
  | none => s
  | some v => { s with stars := s.stars.set player (v + amount) }

/-- All cities of a tribe (`getCitiesForPlayer`). -/
def getCitiesForPlayer (s : GameState) (owner : TribeId) : List CityInstance :=
  s.cities.filter fun c => c.owner = owner

/-- City at a position (`getCityAt`). -/
def getCityAt (s : GameState) (x y : Int) : Option CityInstance :=
  s.cities.find? fun c => c.position.x = x ∧ c.position.y = y

/-- Number of cities owned by a player index (`getCityCountForPlayer`);
an out-of-range player compares cities against `undefined` and counts
none. -/
def getCityCountForPlayer (s : GameState) (player : Nat) : Int :=
  match s.config.tribes.get? player with
  | some tribeId => ((s.cities.filter fun c => c.owner = tribeId).length : Int)
  | none => 0

/-- Append a city (`addCity`). -/
def addCity (s : GameState) (city : CityInstance) : GameState :=
  { s with cities := s.cities ++ [city] }

/-- Replace the city stored at the same position (`updateCity`). -/
def updateCity (s : GameState) (updated : CityInstance) : GameState :=
  match s.cities.findIdx? (fun c =>
      c.position.x = updated.position.x ∧ c.position.y = updated.position.y) with
  | some idx => { s with cities := s.cities.set idx updated }
  | none => s

/-- Player index of a tribe, -1 when absent (`getPlayerForTribe`,
JavaScript `indexOf`). -/
def getPlayerForTribe (s : GameState) (tribeId : TribeId) : Int :=
  match s.config.tribes.indexOf? tribeId with
  | some i => (i : Int)
  | none => -1

/-- Income of a player (`getIncome`): city income summed over the
player's tribe plus the AI difficulty bonus for non-human players. -/
def getIncome (s : GameState) (player : Nat) : Int :=
  let playerCities :=
    match s.config.tribes.get? player with
    | some tribeId => s.getCitiesForPlayer tribeId
    | none => []
  let income := playerCities.foldl (fun acc c => acc + City.calculateCityIncome c) 0
  if player > 0 then income + AI_DIFFICULTY_BONUS s.config.difficulty else income

/-- Collect income at turn start (`collectIncome`). -/
def collectIncome (s : GameState) (player : Nat) : GameState :=
  s.addStars player (s.getIncome player)

/-- Unit lookup by id (`getUnit`). -/
def getUnit (s : GameState) (unitId : String) : Option UnitInstance :=
  unitsGet s.units unitId

/-- First unit (in insertion order) standing at `(x, y)` (`getUnitAt`). -/
def getUnitAt (s : GameState) (x y : Int) : Option UnitInstance :=
  ((s.units.map Prod.snd).find? fun u => u.x = x ∧ u.y = y)

/-- All units of a player (`getUnitsForPlayer`). -/
def getUnitsForPlayer (s : GameState) (playerId : Nat) : List UnitInstance :=
  (s.units.map Prod.snd).filter fun u => u.owner = playerId

/-- Append a unit unless its tile is occupied (`addUnit`). -/
def addUnit (s : GameState) (u : UnitInstance) : Bool × GameState :=
  if (s.getUnitAt u.x u.y).isSome then (false, s)
  else (true, { s with units := unitsSet s.units u.id u })

/-- Remove a unit by id (`removeUnit`). -/
def removeUnit (s : GameState) (unitId : String) : Bool × GameState :=
  let r := unitsDelete s.units unitId
  (r.1, { s with units := r.2 })

/-- Domination win check (`checkWinCondition`): runs only in domination
mode, never overwrites a recorded winner, and records a winner exactly
when a single player still owns a city or a unit.  (The first loop of the
source computes nothing and is omitted.) -/
def checkWinCondition (s : GameState) : GameState :=
  if s.config.winCondition ≠ WinCondition.domination then s
  else if s.winner ≥ 0 then s
  else
    let remaining := (List.range s.playerCount).filter fun p =>
      (match s.config.tribes.get? p with
       | some tribe => s.cities.any fun c => c.owner = tribe
       | none => false)
      || !(s.getUnitsForPlayer p).isEmpty
    match remaining with
    | [p] => { s with winner := (p : Int) }
    | _ => s

/-- Advance to the next player's turn (`endTurn`): rotate the active
player, bump the turn counter on wrap-around, collect the new player's
income, clear that player's moved/attacked flags, and re-check the win
condition. -/
def endTurn (s : GameState) : GameState :=
  let s1 := { s with currentPlayer := (s.currentPlayer + 1) % s.playerCount }
  let s2 :=
    if s1.currentPlayer = 0 then { s1 with turnNumber := s1.turnNumber + 1 }
    else s1
  let s3 := s2.collectIncome s2.currentPlayer
  let s4 := { s3 with units := s3.units.map fun kv =>
    if kv.2.owner = s3.currentPlayer then
      (kv.1, { kv.2 with hasMoved := false, hasAttacked := false })
    else kv }
  checkWinCondition s4

/-- Whether `(x, y)` is a water tile (`isWaterTile`). -/
def isWaterTile (s : GameState) (x y : Int) : Bool :=
  match s.map.getTile x y with
  | none => false
  | some tile => decide (tile.type = .shallowWater ∨ tile.type = .ocean)

end GameState

/-- One pending entry of the movement search queue
(`getMovementRange`, the `{ x, y, remaining }` records). -/
structure QueueEntry where
  x : Int
  y : Int
  remaining : Int
deriving DecidableEq, Repr

/-- The loop state of the movement search: the `visited` map from
coordinate key to best remaining budget, the `reachable` set and the
work queue, all insertion-ordered as in the source. -/
structure BfsState where
  visited : List (Coord × Int)
  reachable : List Coord
  queue : List QueueEntry
deriving DecidableEq, Repr

/-- Lookup in the `visited` map. -/
def visitedGet (v : List (Coord × Int)) (k : Coord) : Option Int :=
  match v with
  | [] => none
  | (k1, r1) :: rest => if k1 = k then some r1 else visitedGet rest k

/-- `Map.set` on the `visited` map. -/
def visitedSet (v : List (Coord × Int)) (k : Coord) (r : Int) :
    List (Coord × Int) :=
  match v with
  | [] => [(k, r)]
  | (k1, r1) :: rest =>
    if k1 = k then (k, r) :: rest else (k1, r1) :: visitedSet rest k r

/-- `Set.add` on the `reachable` set. -/
def reachAdd (r : List Coord) (k : Coord) : List Coord :=
  if k ∈ r then r else r ++ [k]

namespace GameState

/-- The body of the `for (const neighbor of neighbors)` loop of
`getMovementRange`; each early `continue` returns the state unchanged. -/
def processNeighbor (s : GameState) (u : UnitInstance) (cur : QueueEntry)
    (st : BfsState) (neighbor : Tile) : BfsState :=
  let cost := s.map.getMovementCost ⟨cur.x, cur.y⟩ ⟨neighbor.x, neighbor.y⟩
  if s.isWaterTile neighbor.x neighbor.y then st
  else
    let newRemainingOpt : Option Int :=
      if cost ≥ IMPASSABLE_COST then
        if cur.remaining ≥ u.movement ∧ u.movement ≥ 1 then some 0 else none
      else
        if cur.remaining < cost then none else some (cur.remaining - cost)
    match newRemainingOpt with
    | none => st
    | some newRemaining =>
      let nKey : Coord := ⟨neighbor.x, neighbor.y⟩
      match visitedGet st.visited nKey with
      | some prevBest =>
        if prevBest ≥ newRemaining then st
        else
          stepAccept s u st nKey newRemaining
      | none => stepAccept s u st nKey newRemaining
where
  /-- The tail of the loop body after the visited check: record the new
  best budget, mark empty tiles reachable, stop at enemy units, and
  enqueue when budget remains. -/
  stepAccept (s : GameState) (u : UnitInstance) (st : BfsState)
      (nKey : Coord) (newRemaining : Int) : BfsState :=
    let visited1 := visitedSet st.visited nKey newRemaining
    let occupant := s.getUnitAt nKey.x nKey.y
    let reachable1 :=
      if occupant.isNone then reachAdd st.reachable nKey else st.reachable
    let queue1 :=
      if (match occupant with
          | some o => decide (o.owner ≠ u.owner)
          | none => false) then st.queue
      else if newRemaining > 0 then
        st.queue ++ [⟨nKey.x, nKey.y, newRemaining⟩]
      else st.queue
    { visited := visited1, reachable := reachable1, queue := queue1 }

/-- The `while (queue.length > 0)` loop of `getMovementRange`, with an
explicit fuel.  The source loop terminates because every iteration pops
one entry and an entry is pushed only when a tile's recorded best budget
strictly improves, which can happen only finitely often. -/
def bfsLoop (s : GameState) (u : UnitInstance) :
    Nat → BfsState → List Coord
  | _, ⟨_, reachable, []⟩ => reachable
  | 0, st => st.reachable
  | fuel + 1, ⟨visited, reachable, cur :: rest⟩ =>
    let st1 := (s.map.getNeighbors cur.x cur.y).foldl
      (processNeighbor s u cur) ⟨visited, reachable, rest⟩
    bfsLoop s u fuel st1

/-- Fuel that dominates the source loop's iteration count: at most
`⌈movement⌉ + 2` strict budget improvements per board tile, plus the
initial entry. -/
def bfsFuel (s : GameState) (u : UnitInstance) : Nat :=
  (s.map.width.toNat * s.map.height.toNat + 1) * (u.movement.toNat + 2) + 1

/-- The set of destinations a unit can move to (`getMovementRange`),
as the list of coordinate keys the source's `Set<string>` holds. -/
def getMovementRange (s : GameState) (unitId : String) : List Coord :=
  match unitsGet s.units unitId with
  | none => []
  | some u =>
    bfsLoop s u (s.bfsFuel u)
      { visited := [(⟨u.x, u.y⟩, u.movement)]
        reachable := []
        queue := [⟨u.x, u.y, u.movement⟩] }

/-- Capture the city at `(x, y)` for `newOwner`
(`GameState.captureCity`).  Note: unlike the `City.ts` helper
`captureCity`, this method clears only the capital flag and leaves the
wall/workshop/park flags as they were. -/
def captureCity (s : GameState) (x y : Int) (newOwner : TribeId) :
    Bool × GameState :=
  match s.getCityAt x y with
  | none => (false, s)
  | some city =>
    if city.owner = newOwner then (false, s)
    else (true, s.updateCity { city with owner := newOwner, isCapital := false })

/-- Attempt to move a unit (`moveUnit`): validates ownership, the
per-turn moved flag and membership of the destination in the movement
range, then relocates the unit and captures any enemy or neutral city on
the destination tile. -/
def moveUnit (s : GameState) (unitId : String) (toX toY : Int) :
    Bool × GameState :=
  match unitsGet s.units unitId with
  | none => (false, s)
  | some u =>
    if u.owner ≠ s.currentPlayer then (false, s)
    else if u.hasMoved then (false, s)
    else
      let reachable := s.getMovementRange unitId
      if (⟨toX, toY⟩ : Coord) ∉ reachable then (false, s)
      else
        let s1 := { s with
          units := unitsSet s.units unitId { u with x := toX, y := toY, hasMoved := true } }
        match s1.getCityAt toX toY with
        | some city =>
          (match s1.getTribeForPlayer u.owner with
           | some ownerTribe =>
             if city.owner ≠ ownerTribe then
               (true, (s1.captureCity toX toY ownerTribe).2)
             else (true, s1)
           | none => (true, s1))
        | none => (true, s1)

/-- Level up a city with a chosen reward (`levelUpCity`); the
stars reward is credited to the owner as an external effect. -/
def levelUpCity (s : GameState) (cityX cityY : Int)
    (reward : CityLevelRewardOption) :
    Option CityLevelRewardOption × GameState :=
  match s.getCityAt cityX cityY with
  | none => (none, s)
  | some city =>
    if ¬ (City.canLevelUp city = true) then (none, s)
    else
      let s1 := s.updateCity (City.levelUp city reward)
      match reward with
      | .stars amount =>
        let player := s1.getPlayerForTribe city.owner
        if player ≥ 0 then (some reward, s1.addStars player.toNat amount)
        else (some reward, s1)
      | _ => (some reward, s1)

end GameState

/-- The summary record `attackUnit` returns on success. -/
structure AttackSummary where
  damageToDefender : Int
  damageToAttacker : Int
  defenderKilled : Bool
  attackerKilled : Bool
deriving DecidableEq, Repr

namespace GameState

/-- Execute an attack (`attackUnit`): validates actor, per-turn attack
flag, hostile target and Chebyshev range, resolves combat with the
defender's terrain or city bonus and applies the results. -/
def attackUnit (s : GameState) (attackerId : String) (targetX targetY : Int) :
    Option AttackSummary × GameState :=
  match unitsGet s.units attackerId with
  | none => (none, s)
  | some attacker =>
    if attacker.owner ≠ s.currentPlayer then (none, s)
    else if attacker.hasAttacked then (none, s)
    else
      match s.getUnitAt targetX targetY with
      | none => (none, s)
      | some defender =>
        if defender.owner = attacker.owner then (none, s)
        else
          let dist : Int := max (attacker.x - targetX).natAbs (attacker.y - targetY).natAbs
          if dist > attacker.range then (none, s)
          else
            let defenseBonus :=
              match s.map.getTile targetX targetY with
              | some tile => getDefenseBonusForTerrain tile.type
              | none => 1
            let defenseBonus :=
              match s.getCityAt targetX targetY with
              | some defenderCity => getCityDefenseBonus defenderCity.hasWall
              | none => defenseBonus
            let result := resolveCombat attacker defender defenseBonus dist
            let s1 :=
              if result.defenderKilled then
                { s with units := (unitsDelete s.units defender.id).2 }
              else { s with units := unitsSet s.units defender.id result.defender }
            let s2 :=
              if result.attackerKilled then
                { s1 with units := (unitsDelete s1.units attacker.id).2 }
              else { s1 with units := unitsSet s1.units attacker.id result.attacker }
            (some { damageToDefender := result.damageToDefender
                    damageToAttacker := result.damageToAttacker
                    defenderKilled := result.defenderKilled
                    attackerKilled := result.attackerKilled }, s2)

/-- Research a technology for a player (`researchTech`): requires the
prerequisite check of `canResearch` and the affordable cost
`calculateTechCost(techId, max(1, numCities), hasLiteracy)`. -/
def researchTech (s : GameState) (player : Nat) (techId : TechId) :
    Bool × GameState :=
  match s.techStates.get? player with
  | none => (false, s)
  | some techState =>
    if techState.canResearch techId = true then
      let numCities := s.getCityCountForPlayer player
      let cost := calculateTechCost techId (max 1 numCities) techState.hasLiteracy
      let sp := s.spendStars player cost
      if sp.1 = true then
        (true, { sp.2 with
          techStates := sp.2.techStates.set player (techState.research techId).2 })
      else (false, s)
    else (false, s)

/-- Cost query for a tech (`getTechCost`). -/
def getTechCost (s : GameState) (player : Nat) (techId : TechId) : Int :=
  let numCities := s.getCityCountForPlayer player
  calculateTechCost techId (max 1 numCities)
    (match s.techStates.get? player with
     | some techState => techState.hasLiteracy
     | none => false)

/-- Train a unit at a city (`trainUnit`).  The source spends the stars
BEFORE checking that the city tile is empty, so an occupied-tile
rejection still deducts the unit's cost. -/
def trainUnit (s : GameState) (cityX cityY : Int) (unitType : UnitType) :
    Option UnitInstance × GameState :=
  match s.getCityAt cityX cityY with
  | none => (none, s)
  | some city =>
    let player := s.getPlayerForTribe city.owner
    if player < 0 then (none, s)
    else if player ≠ (s.currentPlayer : Int) then (none, s)
    else if unitType ≠ UnitType.warrior
        ∧ ¬ ((match s.techStates.get? player.toNat with
              | some techState => techState.isUnitUnlocked unitType
              | none => false) = true) then (none, s)
    else
      match (getUnitBaseStats unitType).cost with
      | none => (none, s)
      | some cost =>
        let sp := s.spendStars player.toNat cost
        if sp.1 = true then
          if (sp.2.getUnitAt cityX cityY).isSome then (none, sp.2)
          else
            let created := createUnit unitType player.toNat cityX cityY sp.2.nextUnitId
            let s2 := { sp.2 with nextUnitId := created.2 }
            (some created.1, (s2.addUnit created.1).2)
        else (none, s)

end GameState

-- ---------------------------------------------------------------------------
-- MapGen.ts
-- ---------------------------------------------------------------------------

/-- Seeded linear-congruential generator (`MapGen.ts`, `SeededRandom`).
The JavaScript update `(seed * 1664525 + 1013904223) & 0x7fffffff` first
truncates to 32 bits and then masks off the sign bit, which equals
reduction modulo `2^31`; the double-precision product is exact for the
31-bit seeds the generator maintains. -/
structure SeededRandom where
  seed : Int
deriving DecidableEq, Repr

namespace SeededRandom

/-- Advance the LCG and return a value in `[0, 1]` (`next`; the source
comment claims `[0, 1)` but the mask can produce `0x7fffffff` exactly). -/
def next (r : SeededRandom) : Rat × SeededRandom :=
  let s1 := (r.seed * 1664525 + 1013904223).emod 2147483648
  ((s1 : Rat) / 2147483647, { seed := s1 })

/-- Integer draw in `[min, max)` (`nextInt`): `floor(next() * (max - min)) + min`. -/
def nextInt (r : SeededRandom) (lo hi : Int) : Int × SeededRandom :=
  let q := r.next
  (⌊q.1 * ((hi - lo : Int) : Rat)⌋ + lo, q.2)

/-- One pass of the Fisher-Yates loop, indexed by the loop variable `i`
(`shuffle`): for `i` from `length - 1` down to `1`, draw
`j = nextInt(0, i + 1)` and swap positions `i` and `j`. -/
def shuffleGo [Inhabited α] (arr : List α) (r : SeededRandom) :
    Nat → List α × SeededRandom
  | 0 => (arr, r)
  | i + 1 =>
    let d := r.nextInt 0 ((i : Int) + 2)
    let j := d.1.toNat
    let vi := arr.getD (i + 1) default
    let vj := arr.getD j default
    shuffleGo ((arr.set (i + 1) vj).set j vi) d.2 i

/-- Fisher-Yates shuffle (`shuffle`). -/
def shuffle [Inhabited α] (r : SeededRandom) (arr : List α) :
    List α × SeededRandom :=
  shuffleGo arr r (arr.length - 1)

end SeededRandom

/-- Terrain/resource rate multipliers of a tribe (`types.ts`,
`TerrainModifiers`). -/
structure TerrainModifiers where
  forest : Rat
  mountain : Rat
  fruit : Rat
  crop : Rat
  animal : Rat
  metal : Rat
  fish : Rat
deriving DecidableEq, Repr

/-- Per-tribe terrain modifiers (`MapGen.ts`, `TRIBE_MODIFIERS`);
`neutral` has no entry. -/
def TRIBE_MODIFIERS : TribeId → Option TerrainModifiers
  | .xinxi => some ⟨1, 3/2, 1, 1, 1, 3/2, 1⟩
  | .imperius => some ⟨1, 1, 2, 1, 1/2, 1, 1⟩
  | .bardur => some ⟨4/5, 1, 3/2, 0, 1, 1, 1⟩
  | .oumaji => some ⟨1/5, 1/2, 1, 1, 1/5, 1, 1⟩
  | .neutral => none

/-- Average terrain modifiers across the selected tribes (`MapGen.ts`,
`averageModifiers`); tribes without an entry contribute zero but still
count in the divisor. -/
def averageModifiers (tribes : List TribeId) : TerrainModifiers :=
  if tribes.length = 0 then ⟨1, 1, 1, 1, 1, 1, 1⟩
  else
    let sum := tribes.foldl (fun acc tribe =>
      match TRIBE_MODIFIERS tribe with
      | none => acc
      | some mods =>
        { forest := acc.forest + mods.forest
          mountain := acc.mountain + mods.mountain
          fruit := acc.fruit + mods.fruit
          crop := acc.crop + mods.crop
          animal := acc.animal + mods.animal
          metal := acc.metal + mods.metal
          fish := acc.fish + mods.fish }) (⟨0, 0, 0, 0, 0, 0, 0⟩ : TerrainModifiers)
    let n : Rat := (tribes.length : Int)
    ⟨sum.forest / n, sum.mountain / n, sum.fruit / n, sum.crop / n,
     sum.animal / n, sum.metal / n, sum.fish / n⟩

/-- Result of map generation (`MapGen.ts`, `GeneratedMapResult`). -/
structure GeneratedMapResult where
  map : GameMap
  capitals : List Coord
  villages : List Coord

/-- Place one capital per player into the four quadrants (`MapGen.ts`,
`placeCapitals`); the eight random draws happen in the evaluation order
of the source's array literal. -/
def placeCapitals (mapSize : Int) (playerCount : Nat) (rng : SeededRandom) :
    List Coord × SeededRandom :=
  let half := ⌊(mapSize : Rat) / 2⌋
  let margin : Int := 2
  let d1 := rng.nextInt 0 (half - margin * 2)
  let d2 := d1.2.nextInt 0 (half - margin * 2)
  let d3 := d2.2.nextInt 0 (half - margin)
  let d4 := d3.2.nextInt 0 (half - margin * 2)
  let d5 := d4.2.nextInt 0 (half - margin * 2)
  let d6 := d5.2.nextInt 0 (half - margin)
  let d7 := d6.2.nextInt 0 (half - margin)
  let d8 := d7.2.nextInt 0 (half - margin)
  let quadrants : List Coord :=
    [⟨margin + d1.1, margin + d2.1⟩,
     ⟨half + d3.1, margin + d4.1⟩,
     ⟨margin + d5.1, half + d6.1⟩,
     ⟨half + d7.1, half + d8.1⟩]
  (quadrants.take (min playerCount 4), d8.2)

/-- The rejection-sampling loop of `placeVillages`, with the remaining
attempt budget as the structural counter. -/
def placeVillagesGo (mapSize : Int) (capitals : List Coord)
    (targetCount : Int) : Nat → List Coord → SeededRandom →
    List Coord × SeededRandom
  | 0, villages, rng => (villages, rng)
  | attempts + 1, villages, rng =>
    if (villages.length : Int) ≥ targetCount then (villages, rng)
    else
      let dx := rng.nextInt 3 (mapSize - 3)
      let dy := dx.2.nextInt 3 (mapSize - 3)
      let x := dx.1
      let y := dy.1
      let rng1 := dy.2
      if (⟨x, y⟩ : Coord) ∈ capitals ++ villages then
        placeVillagesGo mapSize capitals targetCount attempts villages rng1
      else
        let tooClose := (capitals ++ villages).any fun pos =>
          decide (max (x - pos.x).natAbs (y - pos.y).natAbs < 2)
        if tooClose then
          placeVillagesGo mapSize capitals targetCount attempts villages rng1
        else
          placeVillagesGo mapSize capitals targetCount attempts
            (villages ++ [⟨x, y⟩]) rng1

/-- Place neutral villages by rejection sampling (`MapGen.ts`,
`placeVillages`): at least Chebyshev distance 2 from every placed
position, 3 from the edges, with at most `10 × target` attempts.  The
`occupied` string set of the source always equals the set of capital and
village coordinates and is represented by that list. -/
def placeVillages (mapSize : Int) (capitals : List Coord)
    (rng : SeededRandom) : List Coord × SeededRandom :=
  let targetCount := max 0 (⌊((mapSize : Rat) / 3) ^ 2⌋ - capitals.length)
  placeVillagesGo mapSize capitals targetCount (targetCount * 10).toNat [] rng

/-- The seed-collection loop of `generateWater`: up to `5 × seedCount`
attempts, drawing two coordinates per attempt and rejecting candidates
within Chebyshev distance 3 of a capital. -/
def collectWaterSeedsGo (mapW mapH : Int) (capitals : List Coord)
    (seedCount : Int) : Nat → List Coord → SeededRandom →
    List Coord × SeededRandom
  | 0, seeds, rng => (seeds, rng)
  | attempts + 1, seeds, rng =>
    if (seeds.length : Int) ≥ seedCount then (seeds, rng)
    else
      let dx := rng.nextInt 0 mapW
      let dy := dx.2.nextInt 0 mapH
      let rng1 := dy.2
      let nearCapital := capitals.any fun cap =>
        decide (max (dx.1 - cap.x).natAbs (dy.1 - cap.y).natAbs ≤ 3)
      if nearCapital then
        collectWaterSeedsGo mapW mapH capitals seedCount attempts seeds rng1
      else
        collectWaterSeedsGo mapW mapH capitals seedCount attempts
          (seeds ++ [⟨dx.1, dy.1⟩]) rng1

/-- Whether a coordinate equals some capital (the inner `isCapital` loop
of the water growth). -/
def isCapitalCoord (capitals : List Coord) (x y : Int) : Bool :=
  capitals.any fun cap => decide (cap.x = x ∧ cap.y = y)

/-- The `for (const [dx, dy] of dirs)` body of the water growth loop,
including its early `break` once the target size is reached.  Returns the
grown water set and queue. -/
def growDirs (m : GameMap) (capitals : List Coord) (target : Int)
    (cur : Coord) : List (Int × Int) → List Coord → List Coord →
    SeededRandom → List Coord × List Coord × SeededRandom
  | [], waterSet, queue, rng => (waterSet, queue, rng)
  | d :: dirs, waterSet, queue, rng =>
    let nx := cur.x + d.1
    let ny := cur.y + d.2
    if ¬ (m.isInBounds nx ny = true) then
      growDirs m capitals target cur dirs waterSet queue rng
    else if (⟨nx, ny⟩ : Coord) ∈ waterSet then
      growDirs m capitals target cur dirs waterSet queue rng
    else if isCapitalCoord capitals nx ny then
      growDirs m capitals target cur dirs waterSet queue rng
    else if (waterSet.length : Int) ≥ target then
      (waterSet, queue, rng)
    else
      let q := rng.next
      if q.1 < 3/5 then
        growDirs m capitals target cur dirs (waterSet ++ [⟨nx, ny⟩])
          (queue ++ [⟨nx, ny⟩]) q.2
      else
        growDirs m capitals target cur dirs waterSet queue q.2

/-- The `while (waterSet.size < targetWaterTiles && queue.length > 0)`
loop of `generateWater`: pick a random queue entry, swap-remove it,
shuffle the four cardinal directions and try to grow into each.  Fuel
dominates the iteration count (one pop per iteration, and pushes are
bounded by the water-tile target). -/
def growWaterGo (m : GameMap) (capitals : List Coord) (target : Int) :
    Nat → List Coord → List Coord → SeededRandom →
    List Coord × SeededRandom
  | 0, waterSet, _, rng => (waterSet, rng)
  | fuel + 1, waterSet, queue, rng =>
    if (waterSet.length : Int) ≥ target ∨ queue = [] then (waterSet, rng)
    else
      let d := rng.nextInt 0 (queue.length : Int)
      let idx := d.1.toNat
      let cur := queue.getD idx ⟨0, 0⟩
      let queue1 := ((queue.set idx (queue.getD (queue.length - 1) ⟨0, 0⟩)).dropLast)
      let sh := d.2.shuffle [((-1 : Int), (0 : Int)), (1, 0), (0, -1), (0, 1)]
      let g := growDirs m capitals target cur sh.1 waterSet queue1 sh.2
      growWaterGo m capitals target fuel g.1 g.2.1 g.2.2

/-- Whether some king's-move neighbor of `(x, y)` is land or lies outside
the board (the `touchesLand` scan of `generateWater`). -/
def touchesLand (m : GameMap) (x y : Int) : Bool :=
  GameMap.neighborDeltas.any fun d =>
    match m.getTile (x + d.1) (y + d.2) with
    | none => true
    | some neighbor =>
      decide (neighbor.type ≠ TileType.shallowWater ∧ neighbor.type ≠ TileType.ocean)

/-- Grow water from random seed points (`MapGen.ts`, `generateWater`):
seeds kept away from capitals, randomized flood growth with acceptance
probability 0.6, then reclassification of interior water as ocean. -/
def generateWater (m : GameMap) (waterLevel : Rat) (capitals : List Coord)
    (rng : SeededRandom) : GameMap × SeededRandom :=
  let totalTiles := m.width * m.height
  let targetWaterTiles := ⌊(totalTiles : Rat) * waterLevel⌋
  if targetWaterTiles ≤ 0 then (m, rng)
  else
    let seedCount := max 1 ⌊(targetWaterTiles : Rat) / 20⌋
    let seedsDraw := collectWaterSeedsGo m.width m.height capitals seedCount
      (seedCount * 5).toNat [] rng
    let waterSeeds := seedsDraw.1
    -- `waterSet.add` over the seed list (duplicates collapse), queue as is
    let waterSet0 := waterSeeds.foldl
      (fun acc c => if c ∈ acc then acc else acc ++ [c]) []
    let grown := growWaterGo m capitals targetWaterTiles
      (seedCount * 5 + targetWaterTiles + 1).toNat waterSet0 waterSeeds seedsDraw.2
    let waterSet := grown.1
    let m1 := waterSet.foldl (fun acc c => acc.setTile c.x c.y .shallowWater) m
    let m2 := waterSet.foldl (fun acc c =>
      if touchesLand acc c.x c.y then acc else acc.setTile c.x c.y .ocean) m1
    (m2, grown.2)

/-- Base terrain distribution rates (`MapGen.ts`, `BASE_RATES`). -/
def BASE_RATES : TerrainModifiers := ⟨38/100, 14/100, 0, 0, 0, 0, 0⟩

/-- Base field rate (`BASE_RATES.field`). -/
def BASE_RATE_FIELD : Rat := 48/100

/-- The per-tile body of the terrain loop of `generateTerrain`: only
field tiles away from capitals consume a random roll and may become
forest or mountain. -/
def terrainTile (normalizedForest normalizedMountain : Rat)
    (capitals : List Coord) (x y : Int) (acc : GameMap × SeededRandom) :
    GameMap × SeededRandom :=
  match acc.1.getTile x y with
  | none => acc
  | some tile =>
    if tile.type ≠ TileType.field then acc
    else if isCapitalCoord capitals x y then acc
    else
      let q := acc.2.next
      if q.1 < normalizedForest then (acc.1.setTile x y .forest, q.2)
      else if q.1 < normalizedForest + normalizedMountain then
        (acc.1.setTile x y .mountain, q.2)
      else (acc.1, q.2)

/-- The nine offsets of the capital-area scan of `generateTerrain`
(`dy` outer, `dx` inner, center included). -/
def capitalAreaDeltas : List (Int × Int) :=
  [(-1, -1), (0, -1), (1, -1), (-1, 0), (0, 0), (1, 0), (-1, 1), (0, 1), (1, 1)]

/-- Assign forest and mountain to land tiles (`MapGen.ts`,
`generateTerrain`): weighted draws from base rates scaled by the mean
tribe modifiers, then force-revert water in the 3×3 area around each
capital back to field. -/
def generateTerrain (m : GameMap) (capitals : List Coord)
    (tribes : List TribeId) (rng : SeededRandom) : GameMap × SeededRandom :=
  let avgMods := averageModifiers tribes
  let forestRate := BASE_RATES.forest * avgMods.forest
  let mountainRate := BASE_RATES.mountain * avgMods.mountain
  let totalRate := forestRate + mountainRate
  let normalizedForest := forestRate / (totalRate + BASE_RATE_FIELD)
  let normalizedMountain := mountainRate / (totalRate + BASE_RATE_FIELD)
  let looped := (List.range m.height.toNat).foldl (fun accY y =>
    (List.range m.width.toNat).foldl (fun accX x =>
      terrainTile normalizedForest normalizedMountain capitals
        (x : Int) (y : Int) accX) accY) (m, rng)
  let m2 := capitals.foldl (fun accCap cap =>
    capitalAreaDeltas.foldl (fun accD d =>
      let nx := cap.x + d.1
      let ny := cap.y + d.2
      match accD.getTile nx ny with
      | some t =>
        if t.type = TileType.shallowWater ∨ t.type = TileType.ocean then
          accD.setTile nx ny .field
        else accD
      | none => accD) accCap) looped.1
  (m2, looped.2)

/-- Generate the full map from a game config (`MapGen.ts`,
`generateMap`).  The source seeds the RNG with `seed ?? Date.now()`; the
ambient clock value is passed explicitly as `now`, so that the claim that
an explicit seed makes repeated calls reproducible is a real statement
about the embedded pipeline. -/
def generateMap (config : GameConfig) (seed : Option Int) (now : Int) :
    GeneratedMapResult :=
  let rng : SeededRandom := ⟨seed.getD now⟩
  let mapSize := config.mapSize
  let m := GameMap.create mapSize mapSize .field
  let playerCount := config.tribes.length
  let caps := placeCapitals mapSize playerCount rng
  let vils := placeVillages mapSize caps.1 caps.2
  let water := generateWater m config.waterLevel caps.1 vils.2
  let terrain := generateTerrain water.1 caps.1 config.tribes water.2
  { map := terrain.1, capitals := caps.1, villages := vils.1 }

-- ---------------------------------------------------------------------------
-- Theorems
-- ---------------------------------------------------------------------------

/-- **C9.**  For every game config and every explicitly supplied seed,
two calls of `generateMap` with the same config and seed — regardless of
the ambient clock value that would replace a missing seed — return
identical results: equal capital position lists, equal village lists,
and maps with identical tile types at every coordinate (hence identical
terrain counts). -/
theorem generateMap_deterministic (config : GameConfig) (seed : Int)
    (now1 now2 : Int) :
    (generateMap config (some seed) now1).capitals
        = (generateMap config (some seed) now2).capitals
      ∧ (generateMap config (some seed) now1).villages
        = (generateMap config (some seed) now2).villages
      ∧ ∀ x y : Int,
        (generateMap config (some seed) now1).map.tileType x y
          = (generateMap config (some seed) now2).map.tileType x y :=
  ⟨rfl, rfl, fun _ _ => rfl⟩

/-- **C4.**  The worked combat scenario: an attacker at 15/15 HP with
ATK 3 and DEF 3 striking a defender at 15/15 HP with ATK 1, DEF 3 and
range at least 1, without the Stiff trait, at defense bonus 1.5 and
distance 1, yields exactly 5 damage to the defender and 8 retaliation
damage to the attacker; repeated calls with identical inputs return the
same values. -/
theorem resolveCombat_worked_scenario (a d : UnitInstance)
    (ha1 : a.currentHp = 15) (ha2 : a.maxHp = 15) (ha3 : a.atk = 3)
    (ha4 : a.defense = 3)
    (hd1 : d.currentHp = 15) (hd2 : d.maxHp = 15) (hd3 : d.atk = 1)
    (hd4 : d.defense = 3)
    (hrange : (1 : Int) ≤ d.range) (hstiff : UnitSkill.stiff ∉ d.skills) :
    (resolveCombat a d (3/2) 1).damageToDefender = 5
      ∧ (resolveCombat a d (3/2) 1).damageToAttacker = 8
      ∧ resolveCombat a d (3/2) 1 = resolveCombat a d (3/2) 1 := by
  have hsum : a.atk * (a.currentHp / a.maxHp)
      + d.defense * (d.currentHp / d.maxHp) * (3/2) = (15 : Rat) / 2 := by
    rw [ha1, ha2, ha3, hd1, hd2, hd4]; norm_num
  have hatk : jsRound (a.atk * (a.currentHp / a.maxHp) / ((15 : Rat) / 2)
      * a.atk * (9/2)) = 5 := by
    rw [ha1, ha2, ha3]
    unfold jsRound
    norm_num
  have hdef : jsRound (d.defense * (d.currentHp / d.maxHp) * (3/2) / ((15 : Rat) / 2)
      * d.defense * (9/2)) = 8 := by
    rw [hd1, hd2, hd4]
    unfold jsRound
    norm_num
  refine ⟨?_, ?_, rfl⟩
  · simp only [resolveCombat]
    rw [hsum, hatk, hdef]
    rw [if_neg (by norm_num : ¬((15 : Rat)/2 = 0))]
  · simp only [resolveCombat]
    rw [hsum, hatk, hdef]
    rw [if_neg (by norm_num : ¬((15 : Rat)/2 = 0))]
    simp [hd1, hrange, hstiff]
    norm_num

/-- Witness for the worked scenario: a freshly trained Swordsman
(15/15 HP, ATK 3, DEF 3) attacking a freshly trained Defender
(15/15 HP, ATK 1, DEF 3, range 1, no Stiff) at distance 1 on
1.5×-defense terrain. -/
theorem resolveCombat_worked_scenario_witness :
    (resolveCombat (createUnit .swordsman 0 0 0 1).1
        (createUnit .defender 1 1 0 2).1 (3/2) 1).damageToDefender = 5
      ∧ (resolveCombat (createUnit .swordsman 0 0 0 1).1
        (createUnit .defender 1 1 0 2).1 (3/2) 1).damageToAttacker = 8 := by
  have h := resolveCombat_worked_scenario (createUnit .swordsman 0 0 0 1).1
    (createUnit .defender 1 1 0 2).1 rfl rfl rfl rfl rfl rfl rfl rfl
    (by decide) (by decide)
  exact ⟨h.1, h.2.1⟩

/-- **C8 (counterexample).**  The claim "a unit is eligible for veteran
promotion if and only if it has at least 3 kills and lacks the Static
trait" fails for a unit that is already a veteran: this concrete unit has
3 kills and no Static skill, yet `canPromote` rejects it. -/
theorem canPromote_veteran_counterexample :
    (canPromote { id := "unit-1", type := .warrior, owner := 0, x := 0, y := 0
                  currentHp := 15, maxHp := 15, atk := 2, defense := 2
                  movement := 1, range := 1, kills := 3, isVeteran := true
                  hasMoved := false, hasAttacked := false, isHidden := false
                  skills := [.dash, .fortify] } = false)
      ∧ 3 ≤ (3 : Nat)
      ∧ UnitSkill.static ∉ [UnitSkill.dash, UnitSkill.fortify] := by
  decide

/-- **C8 (amended).**  A unit is eligible for veteran promotion if and
only if it is not already a veteran, has at least 3 cumulative kills and
lacks the Static trait; promoting an eligible unit raises its max HP by
5, fully heals it to the new max and marks it veteran, and promoting an
ineligible unit returns it unchanged. -/
theorem canPromote_promoteToVeteran_spec (u : UnitInstance) :
    (canPromote u = true
        ↔ (u.isVeteran = false ∧ 3 ≤ u.kills ∧ UnitSkill.static ∉ u.skills))
      ∧ (canPromote u = true →
          (promoteToVeteran u).maxHp = u.maxHp + 5
            ∧ (promoteToVeteran u).currentHp = u.maxHp + 5
            ∧ (promoteToVeteran u).isVeteran = true)
      ∧ (canPromote u = false → promoteToVeteran u = u) := by
  by_cases hv : u.isVeteran
    <;> by_cases hs : UnitSkill.static ∈ u.skills
    <;> by_cases hk : 3 ≤ u.kills
    <;> simp [canPromote, promoteToVeteran, hv, hs, hk]

/-- Witness for the amended promotion claim: a non-veteran unit with 3
kills and no Static skill is promoted to 15/15 max HP (from max HP 10). -/
theorem canPromote_promoteToVeteran_spec_witness :
    canPromote { id := "unit-2", type := .warrior, owner := 0, x := 0, y := 0
                 currentHp := 4, maxHp := 10, atk := 2, defense := 2
                 movement := 1, range := 1, kills := 3, isVeteran := false
                 hasMoved := false, hasAttacked := false, isHidden := false
                 skills := [.dash, .fortify] } = true
      ∧ (promoteToVeteran
          { id := "unit-2", type := .warrior, owner := 0, x := 0, y := 0
            currentHp := 4, maxHp := 10, atk := 2, defense := 2
            movement := 1, range := 1, kills := 3, isVeteran := false
            hasMoved := false, hasAttacked := false, isHidden := false
            skills := [.dash, .fortify] }).maxHp = 10 + 5 := by
  have h := canPromote_promoteToVeteran_spec
    { id := "unit-2", type := .warrior, owner := 0, x := 0, y := 0
      currentHp := 4, maxHp := 10, atk := 2, defense := 2
      movement := 1, range := 1, kills := 3, isVeteran := false
      hasMoved := false, hasAttacked := false, isHidden := false
      skills := [.dash, .fortify] }
  exact ⟨h.1.mpr (by decide), (h.2.1 (h.1.mpr (by decide))).1⟩

/-- **C3.**  For every call of `resolveCombat`, the retaliation damage to
the attacker equals `round((defenseForce/total)·DEF·4.5)` computed from
the defender's pre-attack HP, and it is applied if and only if the
defender survives the attack, the attacker's distance is within the
defender's range, the defender lacks the no-retaliation (Stiff) trait,
and the rounded value is positive; in every other case it is exactly 0 —
which is what `specRetaliationDamage`, written from the spec formula,
states. -/
theorem resolveCombat_retaliation_spec (a d : UnitInstance)
    (defenseBonus : Rat) (dist : Int) :
    (resolveCombat a d defenseBonus dist).damageToAttacker
      = specRetaliationDamage a d defenseBonus dist := by
  by_cases h : a.atk * (a.currentHp / a.maxHp)
      + d.defense * (d.currentHp / d.maxHp) * defenseBonus = 0
  · simp only [resolveCombat]
    rw [if_pos h]
    simp only [specRetaliationDamage, specRetaliationValue, specAttackForce,
      specDefenseForce]
    rw [h]
    simp [jsRound]
    norm_num
  · simp only [resolveCombat]
    rw [if_neg h]
    simp only [specRetaliationDamage, specRetaliationValue, specAttackDamage,
      specDefenderSurvives, specAttackForce, specDefenseForce]
    simp only [Bool.and_eq_true, Bool.not_eq_true', decide_eq_true_eq,
      decide_eq_false_iff_not, not_le, gt_iff_lt]
    split_ifs with h1 h2 <;> first | rfl | (exfalso; tauto)

/-- An 8×8 all-field board used by concrete test states. -/
def fieldMap8 : GameMap := GameMap.create 8 8 .field

/-- A two-player domination configuration matching the repository's test
fixtures. -/
def testConfig : GameConfig :=
  { mapSize := 8
    waterLevel := 0
    tribes := [.xinxi, .imperius]
    difficulty := .normal
    winCondition := .domination
    turnLimit := none }

/-- **C6 (counterexample).**  The claim that the charged tech cost equals
`tier × ownedCities + 4` fails for a player who owns no city: Xin-Xi
(player 0, starting tech Climbing) with 20 stars and zero cities
successfully researches Mining (tier 2) and is charged 6 stars
(`tier × max(1, 0) + 4`), not the `2 × 0 + 4 = 4` stars the claim
demands. -/
theorem researchTech_zero_city_cost_counterexample :
    ((((GameState.init fieldMap8 testConfig).addStars 0 15).researchTech
        0 .mining).1 = true)
      ∧ ((GameState.init fieldMap8 testConfig).addStars 0 15).getCityCountForPlayer 0 = 0
      ∧ ((GameState.init fieldMap8 testConfig).addStars 0 15).getStars 0 = 20
      ∧ ((((GameState.init fieldMap8 testConfig).addStars 0 15).researchTech
          0 .mining).2.getStars 0) = 14
      ∧ ¬ ((20 : Int) - 14
          = (getTechDefinition .mining).tier
            * ((GameState.init fieldMap8 testConfig).addStars 0 15).getCityCountForPlayer 0
            + 4) := by
  refine ⟨by decide, by decide, by decide, by decide, by decide⟩

/-- **C6 (amended).**  Whenever `researchTech` succeeds, the stars
charged to the player equal `tier × max(1, ownedCities) + 4` without the
Literacy discount and `ceil((tier × max(1, ownedCities) + 4) × 2/3)` once
the discount technology (Philosophy) is researched. -/
theorem getStars_spendStars (s : GameState) (p : Nat) (amt : Int)
    (h : (s.spendStars p amt).1 = true) :
    (s.spendStars p amt).2.getStars p = s.getStars p - amt := by
  rcases hv : s.stars[p]? with _ | v
  · simp [GameState.spendStars, hv] at h
  · by_cases hlt : v < amt
    · simp [GameState.spendStars, hv, hlt] at h
    · have hlen : p < s.stars.length := by
        by_contra hnl
        rw [List.getElem?_len_le (Nat.le_of_not_lt hnl)] at hv
        exact Option.noConfusion hv
      simp only [GameState.spendStars, GameState.getStars,
        List.get?_eq_getElem?, hv, if_neg hlt]
      rw [List.getElem?_set_eq_of_lt _ hlen]
      rfl

theorem researchTech_charged_cost (s : GameState) (player : Nat)
    (techId : TechId) (h : (s.researchTech player techId).1 = true) :
    ∃ ts, s.techStates.get? player = some ts
      ∧ (s.researchTech player techId).2.getStars player
        = s.getStars player
          - (if ts.hasLiteracy then
              ⌈(((getTechDefinition techId).tier
                  * max 1 (s.getCityCountForPlayer player) + 4 : Int) : Rat)
                * (2/3)⌉
            else
              (getTechDefinition techId).tier
                * max 1 (s.getCityCountForPlayer player) + 4) := by
  rcases hts : s.techStates.get? player with _ | ts
  · unfold GameState.researchTech at h
    simp only [hts] at h
    exact absurd h (by simp)
  · refine ⟨ts, rfl, ?_⟩
    unfold GameState.researchTech at h ⊢
    simp only [hts] at h ⊢
    by_cases hc : ts.canResearch techId = true
    · rw [if_pos hc] at h ⊢
      by_cases hsp : (s.spendStars player
          (calculateTechCost techId (max 1 (s.getCityCountForPlayer player))
            ts.hasLiteracy)).1 = true
      · rw [if_pos hsp]
        show (s.spendStars player
          (calculateTechCost techId (max 1 (s.getCityCountForPlayer player))
            ts.hasLiteracy)).2.getStars player = _
        rw [getStars_spendStars s player _ hsp]
        rfl
      · rw [if_neg hsp] at h
        exact absurd h (by simp)
    · rw [if_neg hc] at h
      exact absurd h (by simp)

/-- A state with one Xin-Xi capital and 15 stars for player 0, used to
witness the amended tech-cost claim. -/
def oneCityState : GameState :=
  (((GameState.init fieldMap8 testConfig).addCity
      (City.createCity .xinxi ⟨0, 0⟩ "Capital" true)).addStars 0 10)

/-- Witness for the amended tech-cost claim: researching Mining with one
city and no Literacy charges `2 × max(1, 1) + 4 = 6` stars. -/
theorem researchTech_charged_cost_witness :
    ∃ ts, oneCityState.techStates.get? 0 = some ts
      ∧ (oneCityState.researchTech 0 .mining).2.getStars 0
        = oneCityState.getStars 0
          - (if ts.hasLiteracy then
              ⌈(((getTechDefinition .mining).tier
                  * max 1 (oneCityState.getCityCountForPlayer 0) + 4 : Int) : Rat)
                * (2/3)⌉
            else
              (getTechDefinition .mining).tier
                * max 1 (oneCityState.getCityCountForPlayer 0) + 4) :=
  researchTech_charged_cost oneCityState 0 .mining (by decide)

/-- A state with a Xin-Xi capital at (3,3), 15 stars for player 0, and a
warrior already standing on the capital tile. -/
def occupiedCityState : GameState :=
  ((((GameState.init fieldMap8 testConfig).addCity
      (City.createCity .xinxi ⟨3, 3⟩ "Capital" true)).addStars 0 10).addUnit
      (createUnit .warrior 0 3 3 1).1).2

/-- **C1 (failing input).**  `trainUnit` spends the stars before checking
that the city tile is empty: training a warrior (cost 2) at a city whose
tile is occupied returns `undefined` — an expected rejection — yet the
acting player's star balance drops from 15 to 13, contradicting the
claim that every rejected mutating command leaves the entire game state,
and in particular the player's stars, untouched. -/
theorem trainUnit_occupied_tile_spends_stars :
    (occupiedCityState.trainUnit 3 3 .warrior).1 = none
      ∧ occupiedCityState.getStars 0 = 15
      ∧ (occupiedCityState.trainUnit 3 3 .warrior).2.getStars 0 = 13 := by
  refine ⟨by decide, by decide, by decide⟩

/-- A 3×3 all-field board. -/
def fieldMap3 : GameMap := GameMap.create 3 3 .field

/-- A state with a fully built-up enemy (Imperius) city at (1,0) — wall,
workshop and park flags all set — and a Xin-Xi warrior at (0,0). -/
def walledCityState : GameState :=
  (((GameState.init fieldMap3 testConfig).addCity
      { City.createCity .imperius ⟨1, 0⟩ "Fortress" false with
        hasWall := true, hasWorkshop := true, hasPark := true }).addUnit
      (createUnit .warrior 0 0 0 1).1).2

/-- **C2 (failing input).**  Capture triggered by moving a unit onto an
enemy city goes through `GameState.captureCity`, which changes the owner
and clears the capital flag but — unlike the `City.ts` helper — leaves
the wall, workshop and park flags set: after the Xin-Xi warrior moves
onto the Imperius city, the captured city still has all three flags
true, contradicting the claim that they are all false. -/
theorem moveUnit_capture_keeps_building_flags :
    (walledCityState.moveUnit "unit-1" 1 0).1 = true
      ∧ (walledCityState.moveUnit "unit-1" 1 0).2.getCityAt 1 0
        = some { owner := .xinxi, position := ⟨1, 0⟩, name := "Fortress"
                 level := 1, population := 0, isCapital := false
                 hasWall := true, hasWorkshop := true, hasPark := true
                 borderSize := 3 } := by
  refine ⟨by decide, by decide⟩

-- ---------------------------------------------------------------------------
-- C7: tech prerequisite invariant
-- ---------------------------------------------------------------------------

/-- Fold a sequence of `research` calls over a tech state. -/
def researchAll (s : PlayerTechState) (calls : List TechId) : PlayerTechState :=
  calls.foldl (fun acc c => (acc.research c).2) s

/-- A tech state is prerequisite-closed when every researched tech's
prerequisite (if any) is researched. -/
def prereqClosed (s : PlayerTechState) : Prop :=
  ∀ id ∈ s.researched, ∀ p,
    (getTechDefinition id).prerequisite = some p → p ∈ s.researched

/-- Data fact: tier-1 techs have no prerequisite. -/
theorem tier1_no_prereq (t : TechId)
    (h : (getTechDefinition t).tier = 1) :
    (getTechDefinition t).prerequisite = none := by
  cases t <;> first | exact absurd h (by decide) | rfl

/-- Data fact: a tier-3 tech's prerequisite is a tier-2 tech whose own
prerequisite is a tier-1 tech. -/
theorem tier3_chain (t : TechId) (h : (getTechDefinition t).tier = 3) :
    ∃ p, (getTechDefinition t).prerequisite = some p
      ∧ (getTechDefinition p).tier = 2
      ∧ ∃ q, (getTechDefinition p).prerequisite = some q
          ∧ (getTechDefinition q).tier = 1 := by
  cases t <;> first
    | exact absurd h (by decide)
    | exact ⟨_, rfl, rfl, _, rfl, rfl⟩

theorem mem_addResearched_iff (s : PlayerTechState) (id a : TechId) :
    a ∈ (s.addResearched id).researched ↔ a ∈ s.researched ∨ a = id := by
  unfold PlayerTechState.addResearched
  split_ifs with h
  · constructor
    · exact fun ha => Or.inl ha
    · rintro (ha | rfl)
      · exact ha
      · exact h
  · simp [List.mem_append]

theorem canResearch_true_prereq (s : PlayerTechState) (c p : TechId)
    (hc : s.canResearch c = true)
    (hp : (getTechDefinition c).prerequisite = some p) :
    p ∈ s.researched := by
  unfold PlayerTechState.canResearch at hc
  split_ifs at hc
  rw [hp] at hc
  simpa using hc

theorem research_preserves_closed (s : PlayerTechState) (c : TechId)
    (h : prereqClosed s) : prereqClosed (s.research c).2 := by
  unfold PlayerTechState.research
  by_cases hc : s.canResearch c = true
  · rw [if_pos hc]
    intro id hid p hp
    rcases (mem_addResearched_iff s c id).1 hid with hmem | rfl
    · exact (mem_addResearched_iff s c p).2 (Or.inl (h id hmem p hp))
    · exact (mem_addResearched_iff s id p).2
        (Or.inl (canResearch_true_prereq s id p hc hp))
  · rw [if_neg hc]
    exact h

theorem mem_init_researched (inits : List TechId) (a : TechId)
    (ha : a ∈ (PlayerTechState.init inits).researched) : a ∈ inits := by
  unfold PlayerTechState.init at ha
  suffices hgen : ∀ (l : List TechId) (s : PlayerTechState),
      a ∈ (l.foldl PlayerTechState.addResearched s).researched →
      a ∈ s.researched ∨ a ∈ l by
    rcases hgen inits ⟨[]⟩ ha with hmem | hmem
    · exact absurd hmem (List.not_mem_nil a)
    · exact hmem
  intro l
  induction l with
  | nil => exact fun s hs => Or.inl hs
  | cons b bs ih =>
    intro s hs
    rcases ih (s.addResearched b) hs with hmem | hmem
    · rcases (mem_addResearched_iff s b a).1 hmem with hmem2 | rfl
      · exact Or.inl hmem2
      · exact Or.inr (List.mem_cons_self a bs)
    · exact Or.inr (List.mem_cons_of_mem b hmem)

theorem researchAll_preserves_closed (calls : List TechId)
    (s : PlayerTechState) (h : prereqClosed s) :
    prereqClosed (researchAll s calls) := by
  induction calls generalizing s with
  | nil => exact h
  | cons c cs ih => exact ih (s.research c).2 (research_preserves_closed s c h)

/-- **C7.**  Starting from only tier-1 (prerequisite-free) techs, after
any sequence of `research` calls every researched tier-3 tech has its
tier-2 prerequisite researched, and that tier-2 tech has its tier-1
prerequisite researched; moreover `canResearch` never returns true for a
tier-3 tech whose prerequisite is unresearched. -/
theorem techTree_tier3_prerequisite_invariant (inits : List TechId)
    (hinit : ∀ t ∈ inits, (getTechDefinition t).tier = 1)
    (calls : List TechId) :
    (∀ id ∈ (researchAll (PlayerTechState.init inits) calls).researched,
      (getTechDefinition id).tier = 3 →
        ∃ p, (getTechDefinition id).prerequisite = some p
          ∧ p ∈ (researchAll (PlayerTechState.init inits) calls).researched
          ∧ (getTechDefinition p).tier = 2
          ∧ ∃ q, (getTechDefinition p).prerequisite = some q
              ∧ q ∈ (researchAll (PlayerTechState.init inits) calls).researched
              ∧ (getTechDefinition q).tier = 1)
      ∧ (∀ id, (getTechDefinition id).tier = 3 →
          (∀ p, (getTechDefinition id).prerequisite = some p →
            p ∉ (researchAll (PlayerTechState.init inits) calls).researched) →
          (researchAll (PlayerTechState.init inits) calls).canResearch id
            = false) := by
  have hclosed0 : prereqClosed (PlayerTechState.init inits) := by
    intro id hid p hp
    have h1 := hinit id (mem_init_researched inits id hid)
    rw [tier1_no_prereq id h1] at hp
    exact Option.noConfusion hp
  have hclosed := researchAll_preserves_closed calls
    (PlayerTechState.init inits) hclosed0
  constructor
  · intro id hid h3
    obtain ⟨p, hp, hp2, q, hq, hq1⟩ := tier3_chain id h3
    have hpmem := hclosed id hid p hp
    have hqmem := hclosed p hpmem q hq
    exact ⟨p, hp, hpmem, hp2, q, hq, hqmem, hq1⟩
  · intro id h3 hnp
    unfold PlayerTechState.canResearch
    by_cases hm : id ∈ (researchAll (PlayerTechState.init inits) calls).researched
    · rw [if_pos hm]
    · rw [if_neg hm]
      obtain ⟨p, hp, -⟩ := tier3_chain id h3
      rw [hp]
      simp [hnp p hp]

/-- Witness for the prerequisite invariant: starting from Climbing only
and researching Mining then Smithery, the final state satisfies both
parts of the invariant. -/
theorem techTree_tier3_prerequisite_invariant_witness :
    (∀ id ∈ (researchAll (PlayerTechState.init [.climbing])
        [.mining, .smithery]).researched,
      (getTechDefinition id).tier = 3 →
        ∃ p, (getTechDefinition id).prerequisite = some p
          ∧ p ∈ (researchAll (PlayerTechState.init [.climbing])
              [.mining, .smithery]).researched
          ∧ (getTechDefinition p).tier = 2
          ∧ ∃ q, (getTechDefinition p).prerequisite = some q
              ∧ q ∈ (researchAll (PlayerTechState.init [.climbing])
                  [.mining, .smithery]).researched
              ∧ (getTechDefinition q).tier = 1)
      ∧ (∀ id, (getTechDefinition id).tier = 3 →
          (∀ p, (getTechDefinition id).prerequisite = some p →
            p ∉ (researchAll (PlayerTechState.init [.climbing])
                [.mining, .smithery]).researched) →
          (researchAll (PlayerTechState.init [.climbing])
              [.mining, .smithery]).canResearch id = false) :=
  techTree_tier3_prerequisite_invariant [.climbing] (by decide)
    [.mining, .smithery]

-- ---------------------------------------------------------------------------
-- C10: the winner sentinel is never overwritten
-- ---------------------------------------------------------------------------

theorem winner_ite (c : Prop) [Decidable c] (a b : GameState) (w : Int)
    (ha : a.winner = w) (hb : b.winner = w) :
    (if c then a else b).winner = w := by
  split <;> assumption

theorem winner_addStars (s : GameState) (p : Nat) (a : Int) :
    (s.addStars p a).winner = s.winner := by
  unfold GameState.addStars
  split <;> rfl

theorem winner_spendStars (s : GameState) (p : Nat) (a : Int) :
    (s.spendStars p a).2.winner = s.winner := by
  unfold GameState.spendStars
  split
  · rfl
  · split <;> rfl

theorem winner_updateCity (s : GameState) (c : CityInstance) :
    (s.updateCity c).winner = s.winner := by
  unfold GameState.updateCity
  split <;> rfl

theorem winner_addUnit (s : GameState) (u : UnitInstance) :
    (s.addUnit u).2.winner = s.winner := by
  unfold GameState.addUnit
  split <;> rfl

theorem winner_removeUnit (s : GameState) (unitId : String) :
    (s.removeUnit unitId).2.winner = s.winner := rfl

theorem winner_captureCity (s : GameState) (x y : Int) (t : TribeId) :
    (s.captureCity x y t).2.winner = s.winner := by
  unfold GameState.captureCity
  split
  · rfl
  · split
    · rfl
    · exact winner_updateCity s _

theorem winner_levelUpCity (s : GameState) (x y : Int)
    (reward : CityLevelRewardOption) :
    (s.levelUpCity x y reward).2.winner = s.winner := by
  simp only [GameState.levelUpCity]
  split
  · rfl
  · split
    · rfl
    · split
      · split
        · rw [winner_addStars, winner_updateCity]
        · exact winner_updateCity s _
      · exact winner_updateCity s _

theorem winner_moveUnit (s : GameState) (unitId : String) (x y : Int) :
    (s.moveUnit unitId x y).2.winner = s.winner := by
  simp only [GameState.moveUnit]
  split
  · rfl
  · split
    · rfl
    · split
      · rfl
      · split
        · rfl
        · split
          · split
            · split
              · rw [winner_captureCity]
              · rfl
            · rfl
          · rfl

theorem winner_researchTech (s : GameState) (p : Nat) (t : TechId) :
    (s.researchTech p t).2.winner = s.winner := by
  simp only [GameState.researchTech]
  split
  · rfl
  · split
    · split
      · exact winner_spendStars s p _
      · rfl
    · rfl

theorem winner_attackUnit (s : GameState) (unitId : String) (x y : Int) :
    (s.attackUnit unitId x y).2.winner = s.winner := by
  simp only [GameState.attackUnit]
  split
  · rfl
  · split
    · rfl
    · split
      · rfl
      · split
        · rfl
        · split
          · rfl
          · split
            · rfl
            · exact winner_ite _ _ _ _
                (winner_ite _ _ _ _ rfl rfl) (winner_ite _ _ _ _ rfl rfl)

theorem winner_trainUnit (s : GameState) (x y : Int) (t : UnitType) :
    (s.trainUnit x y t).2.winner = s.winner := by
  simp only [GameState.trainUnit]
  split
  · rfl
  · split
    · rfl
    · split
      · rfl
      · split
        · rfl
        · split
          · rfl
          · split
            · split
              · exact winner_spendStars s _ _
              · rw [winner_addUnit]
                exact winner_spendStars s _ _
            · rfl

theorem winner_checkWinCondition (s : GameState) (h : 0 ≤ s.winner) :
    (s.checkWinCondition).winner = s.winner := by
  unfold GameState.checkWinCondition
  split_ifs with h1
  · rfl
  · rfl

theorem winner_collectIncome (s : GameState) (p : Nat) :
    (s.collectIncome p).winner = s.winner := by
  unfold GameState.collectIncome
  exact winner_addStars s p _

theorem winner_checkWinCondition_eq (t : GameState) (w : Int)
    (ht : t.winner = w) (hw : 0 ≤ w) :
    t.checkWinCondition.winner = w := by
  rw [winner_checkWinCondition t (by rw [ht]; exact hw), ht]

theorem winner_endTurn (s : GameState) (h : 0 ≤ s.winner) :
    s.endTurn.winner = s.winner := by
  simp only [GameState.endTurn]
  apply winner_checkWinCondition_eq
  · simp only [winner_collectIncome]
    exact winner_ite _ _ _ _ rfl rfl
  · exact h

/-- The public mutating commands of the claim. -/
inductive Op where
  | endTurn
  | moveUnit (unitId : String) (x y : Int)
  | attackUnit (unitId : String) (x y : Int)
  | researchTech (player : Nat) (techId : TechId)
  | trainUnit (x y : Int) (unitType : UnitType)
  | levelUpCity (x y : Int) (reward : CityLevelRewardOption)
  | addUnit (u : UnitInstance)
  | removeUnit (unitId : String)

/-- Apply one public command to the state, discarding the result value. -/
def applyOp (s : GameState) : Op → GameState
  | .endTurn => s.endTurn
  | .moveUnit unitId x y => (s.moveUnit unitId x y).2
  | .attackUnit unitId x y => (s.attackUnit unitId x y).2
  | .researchTech player techId => (s.researchTech player techId).2
  | .trainUnit x y unitType => (s.trainUnit x y unitType).2
  | .levelUpCity x y reward => (s.levelUpCity x y reward).2
  | .addUnit u => (s.addUnit u).2
  | .removeUnit unitId => (s.removeUnit unitId).2

theorem winner_applyOp (s : GameState) (op : Op) (h : 0 ≤ s.winner) :
    (applyOp s op).winner = s.winner := by
  cases op with
  | endTurn => exact winner_endTurn s h
  | moveUnit unitId x y => exact winner_moveUnit s unitId x y
  | attackUnit unitId x y => exact winner_attackUnit s unitId x y
  | researchTech player techId => exact winner_researchTech s player techId
  | trainUnit x y unitType => exact winner_trainUnit s x y unitType
  | levelUpCity x y reward => exact winner_levelUpCity s x y reward
  | addUnit u => exact winner_addUnit s u
  | removeUnit unitId => exact winner_removeUnit s unitId

/-- **C10.**  Once the winner sentinel holds a player index `w ≥ 0`, no
sequence of public commands (`endTurn`, `moveUnit`, `attackUnit`,
`researchTech`, `trainUnit`, `levelUpCity`, `addUnit`, `removeUnit`)
ever changes it: `getWinner` returns `w` forever after. -/
theorem winner_immutable (s : GameState) (w : Int) (hw : s.winner = w)
    (h0 : 0 ≤ w) (ops : List Op) :
    (ops.foldl applyOp s).getWinner = w := by
  induction ops generalizing s with
  | nil => exact hw
  | cons op rest ih =>
    exact ih (applyOp s op)
      ((winner_applyOp s op (hw ▸ h0)).trans hw)

-- ---------------------------------------------------------------------------
-- C5: movement range on open terrain
-- ---------------------------------------------------------------------------

/-- Chebyshev (king's-move) distance between two coordinates. -/
def cheb (p q : Coord) : Nat := max (p.x - q.x).natAbs (p.y - q.y).natAbs

theorem cheb_mk (a b c d : Int) :
    cheb ⟨a, b⟩ ⟨c, d⟩ = max (a - c).natAbs (b - d).natAbs := rfl

theorem getTile_create (w h x y : Int) :
    (GameMap.create w h .field).getTile x y
      = if 0 ≤ x ∧ x < w ∧ 0 ≤ y ∧ y < h then some ⟨.field, x, y⟩ else none := by
  simp only [GameMap.getTile, GameMap.create, GameMap.isInBounds,
    decide_eq_true_eq]

theorem getMovementCost_create (w h : Int) (a b : Coord)
    (hin : 0 ≤ b.x ∧ b.x < w ∧ 0 ≤ b.y ∧ b.y < h) :
    (GameMap.create w h .field).getMovementCost a b = 1 := by
  simp [GameMap.getMovementCost, getTile_create, hin]

theorem isWaterTile_create (s : GameState) (w h : Int)
    (hmap : s.map = GameMap.create w h .field) (x y : Int) :
    s.isWaterTile x y = false := by
  rw [GameState.isWaterTile, hmap, getTile_create]
  split_ifs <;> rfl

theorem getUnitAt_single (s : GameState) (uid : String) (u : UnitInstance)
    (hunits : s.units = [(uid, u)]) (x y : Int) :
    s.getUnitAt x y = if u.x = x ∧ u.y = y then some u else none := by
  simp [GameState.getUnitAt, hunits, List.find?]

theorem unitsGet_single (uid : String) (u : UnitInstance) :
    unitsGet [(uid, u)] uid = some u := by
  simp [unitsGet]

theorem visitedGet_singleton (k k1 : Coord) (r : Int) :
    visitedGet [(k, r)] k1 = if k = k1 then some r else none := by
  simp [visitedGet]

theorem visitedSet_eq_append (V : List (Coord × Int)) (k : Coord) (r : Int)
    (h : visitedGet V k = none) : visitedSet V k r = V ++ [(k, r)] := by
  induction V with
  | nil => rfl
  | cons kv rest ih =>
    rw [visitedGet] at h
    rw [visitedSet]
    split_ifs at h ⊢ with h1
    rw [ih h, List.cons_append]

theorem visitedGet_append_left (V W : List (Coord × Int)) (k : Coord)
    (r : Int) (h : visitedGet V k = some r) :
    visitedGet (V ++ W) k = some r := by
  induction V with
  | nil => simp [visitedGet] at h
  | cons kv rest ih =>
    rw [visitedGet] at h
    rw [List.cons_append, visitedGet]
    split_ifs at h ⊢ with h1
    · exact h
    · exact ih h

theorem visitedGet_append_right (V W : List (Coord × Int)) (k : Coord)
    (h : visitedGet V k = none) :
    visitedGet (V ++ W) k = visitedGet W k := by
  induction V with
  | nil => rfl
  | cons kv rest ih =>
    rw [visitedGet] at h
    rw [List.cons_append, visitedGet]
    split_ifs at h ⊢ with h1
    exact ih h

theorem reachAdd_eq_append (R : List Coord) (c : Coord) (h : c ∉ R) :
    reachAdd R c = R ++ [c] := by
  simp [reachAdd, h]

set_option maxHeartbeats 1600000 in
theorem mem_getNeighbors_create (w h x y : Int) (t : Tile) :
    t ∈ (GameMap.create w h .field).getNeighbors x y
      ↔ (0 ≤ t.x ∧ t.x < w ∧ 0 ≤ t.y ∧ t.y < h ∧ t.type = .field
          ∧ cheb ⟨t.x, t.y⟩ ⟨x, y⟩ = 1) := by
  simp only [GameMap.getNeighbors, List.mem_filterMap, getTile_create]
  constructor
  · rintro ⟨⟨dx, dy⟩, hd, hsome⟩
    split_ifs at hsome with hin
    cases hsome
    refine ⟨hin.1, hin.2.1, hin.2.2.1, hin.2.2.2, rfl, ?_⟩
    simp only [GameMap.neighborDeltas, List.mem_cons, List.not_mem_nil,
      or_false, Prod.mk.injEq] at hd
    show max (x + dx - x).natAbs (y + dy - y).natAbs = 1
    omega
  · rintro ⟨h1, h2, h3, h4, htype, hcheb⟩
    rw [cheb_mk] at hcheb
    refine ⟨(t.x - x, t.y - y), ?_, ?_⟩
    · simp only [GameMap.neighborDeltas, List.mem_cons, List.not_mem_nil,
        or_false, Prod.mk.injEq]
      omega
    · have e1 : ((t.x - x, t.y - y) : Int × Int).1 = t.x - x := rfl
      have e2 : ((t.x - x, t.y - y) : Int × Int).2 = t.y - y := rfl
      rw [e1, e2]
      have ex : x + (t.x - x) = t.x := by omega
      have ey : y + (t.y - y) = t.y := by omega
      rw [ex, ey]
      rw [if_pos ⟨h1, h2, h3, h4⟩]
      cases t with
      | mk ttype tx ty =>
        have ht : ttype = TileType.field := htype
        rw [ht]

theorem getNeighbors_create_coords_pairwise (w h x y : Int) :
    ((GameMap.create w h .field).getNeighbors x y).Pairwise
      (fun a b => ¬(a.x = b.x ∧ a.y = b.y)) := by
  unfold GameMap.getNeighbors
  have hp : (GameMap.neighborDeltas).Pairwise (fun a b => a ≠ b) := by decide
  refine hp.filterMap _ ?_
  intro a b hab t1 ht1 t2 ht2
  rw [getTile_create, Option.mem_def] at ht1 ht2
  split_ifs at ht1 ht2
  injection ht1 with ht1
  injection ht2 with ht2
  subst ht1
  subst ht2
  intro hcon
  have hx : x + a.1 = x + b.1 := hcon.1
  have hy : y + a.2 = y + b.2 := hcon.2
  exact hab (Prod.ext (by omega) (by omega))

theorem processNeighbor_rem1 (s : GameState) (w h : Int) (uid : String)
    (u : UnitInstance) (hmap : s.map = GameMap.create w h .field)
    (hunits : s.units = [(uid, u)])
    (cur : QueueEntry) (hrem : cur.remaining = 1)
    (st : BfsState) (t : Tile)
    (ht : 0 ≤ t.x ∧ t.x < w ∧ 0 ≤ t.y ∧ t.y < h)
    (hV : ∀ r, visitedGet st.visited ⟨t.x, t.y⟩ = some r → 0 ≤ r)
    (hocc : visitedGet st.visited ⟨t.x, t.y⟩ = none → ¬(u.x = t.x ∧ u.y = t.y)) :
    GameState.processNeighbor s u cur st t
      = if visitedGet st.visited ⟨t.x, t.y⟩ = none then
          { visited := visitedSet st.visited ⟨t.x, t.y⟩ 0
            reachable := reachAdd st.reachable ⟨t.x, t.y⟩
            queue := st.queue }
        else st := by
  have hw := isWaterTile_create s w h hmap t.x t.y
  have hc : s.map.getMovementCost ⟨cur.x, cur.y⟩ ⟨t.x, t.y⟩ = 1 := by
    rw [hmap]
    exact getMovementCost_create w h _ _ ht
  simp only [GameState.processNeighbor, hw, hc, hrem, Bool.false_eq_true,
    if_false, IMPASSABLE_COST]
  rw [if_neg (by norm_num : ¬((1 : Int) ≥ 99)),
    if_neg (by norm_num : ¬((1 : Int) < 1))]
  rw [show (1 : Int) - 1 = 0 from rfl]
  rcases hv : visitedGet st.visited ⟨t.x, t.y⟩ with _ | r
  · simp [GameState.processNeighbor.stepAccept,
      getUnitAt_single s uid u hunits, hocc hv]
  · have h0 : 0 ≤ r := hV r hv
    simp [h0]

theorem processNeighbor_rem2 (s : GameState) (w h : Int) (uid : String)
    (u : UnitInstance) (hmap : s.map = GameMap.create w h .field)
    (hunits : s.units = [(uid, u)])
    (cur : QueueEntry) (hrem : cur.remaining = 2)
    (st : BfsState) (t : Tile)
    (ht : 0 ≤ t.x ∧ t.x < w ∧ 0 ≤ t.y ∧ t.y < h)
    (hv : visitedGet st.visited ⟨t.x, t.y⟩ = none)
    (hocc : ¬(u.x = t.x ∧ u.y = t.y)) :
    GameState.processNeighbor s u cur st t
      = { visited := visitedSet st.visited ⟨t.x, t.y⟩ 1
          reachable := reachAdd st.reachable ⟨t.x, t.y⟩
          queue := st.queue ++ [⟨t.x, t.y, 1⟩] } := by
  have hw := isWaterTile_create s w h hmap t.x t.y
  have hc : s.map.getMovementCost ⟨cur.x, cur.y⟩ ⟨t.x, t.y⟩ = 1 := by
    rw [hmap]
    exact getMovementCost_create w h _ _ ht
  simp only [GameState.processNeighbor, hw, hc, hrem, Bool.false_eq_true,
    if_false, IMPASSABLE_COST]
  rw [if_neg (by norm_num : ¬((1 : Int) ≥ 99)),
    if_neg (by norm_num : ¬((2 : Int) < 1))]
  rw [show (2 : Int) - 1 = 1 from rfl]
  rw [hv]
  simp [GameState.processNeighbor.stepAccept,
    getUnitAt_single s uid u hunits, hocc]

theorem visitedGet_append_cases (V W : List (Coord × Int)) (k : Coord)
    (r : Int) (h : visitedGet (V ++ W) k = some r) :
    visitedGet V k = some r
      ∨ (visitedGet V k = none ∧ visitedGet W k = some r) := by
  rcases hv : visitedGet V k with _ | r0
  · exact Or.inr ⟨rfl, by rw [visitedGet_append_right V W k hv] at h; exact h⟩
  · rw [visitedGet_append_left V W k r0 hv] at h
    injection h with h
    subst h
    exact Or.inl rfl

theorem foldl_rem1 (s : GameState) (w h : Int) (uid : String)
    (u : UnitInstance) (hmap : s.map = GameMap.create w h .field)
    (hunits : s.units = [(uid, u)])
    (cur : QueueEntry) (hrem : cur.remaining = 1) :
    ∀ (ts : List Tile) (V : List (Coord × Int)) (R : List Coord)
      (Q : List QueueEntry),
    (∀ t ∈ ts, 0 ≤ t.x ∧ t.x < w ∧ 0 ≤ t.y ∧ t.y < h) →
    (ts.Pairwise fun a b => ¬(a.x = b.x ∧ a.y = b.y)) →
    (∀ k r, visitedGet V k = some r → 0 ≤ r) →
    (∀ c ∈ R, visitedGet V c ≠ none) →
    ((visitedGet V ⟨u.x, u.y⟩).isSome) →
    ts.foldl (GameState.processNeighbor s u cur) ⟨V, R, Q⟩
      = ⟨V ++ ((ts.filter fun t => (visitedGet V ⟨t.x, t.y⟩).isNone).map
            fun t => (⟨t.x, t.y⟩, 0)),
         R ++ ((ts.filter fun t => (visitedGet V ⟨t.x, t.y⟩).isNone).map
            fun t => ⟨t.x, t.y⟩),
         Q⟩ := by
  intro ts
  induction ts with
  | nil => intro V R Q _ _ _ _ _; simp
  | cons t rest ih =>
    intro V R Q hts hpw hV hRV hstart
    have ht := hts t (List.mem_cons_self t rest)
    have htr := fun t1 h1 => hts t1 (List.mem_cons_of_mem t h1)
    rw [List.foldl_cons]
    rcases hv : visitedGet V ⟨t.x, t.y⟩ with _ | r
    · -- fresh tile: accepted with budget 0, reachable, no enqueue
      have hocc : ¬(u.x = t.x ∧ u.y = t.y) := by
        rintro ⟨hx, hy⟩
        rw [show (⟨t.x, t.y⟩ : Coord) = ⟨u.x, u.y⟩ from by rw [hx, hy]] at hv
        rw [hv] at hstart
        exact absurd hstart (by simp)
      rw [processNeighbor_rem1 s w h uid u hmap hunits cur hrem ⟨V, R, Q⟩ t ht
        (by intro r hr; exact hV _ r hr) (fun _ => hocc)]
      rw [if_pos hv]
      have hnotR : (⟨t.x, t.y⟩ : Coord) ∉ R := fun hmem => (hRV _ hmem) hv
      rw [visitedSet_eq_append V ⟨t.x, t.y⟩ 0 hv, reachAdd_eq_append R _ hnotR]
      have hpwt := (List.pairwise_cons.1 hpw).1
      have step := ih (V ++ [(⟨t.x, t.y⟩, 0)]) (R ++ [⟨t.x, t.y⟩]) Q htr
        (List.pairwise_cons.1 hpw).2
        (by
          intro k r hk
          rcases visitedGet_append_cases V _ k r hk with hk1 | ⟨hk1, hk2⟩
          · exact hV k r hk1
          · rw [visitedGet_singleton] at hk2
            split_ifs at hk2
            cases hk2
            omega)
        (by
          intro c hc
          rcases List.mem_append.1 hc with hc1 | hc1
          · rcases hcv : visitedGet V c with _ | rc
            · exact absurd hcv (hRV c hc1)
            · rw [visitedGet_append_left V _ c rc hcv]
              simp
          · rw [List.mem_singleton] at hc1
            subst hc1
            rw [visitedGet_append_right _ _ _ hv, visitedGet_singleton,
              if_pos rfl]
            simp)
        (by
          rcases hs : visitedGet V ⟨u.x, u.y⟩ with _ | rs
          · rw [hs] at hstart; exact absurd hstart (by simp)
          · rw [visitedGet_append_left V _ _ rs hs]; simp)
      rw [step]
      have hfilter : rest.filter
            (fun t1 => (visitedGet (V ++ [(⟨t.x, t.y⟩, 0)]) ⟨t1.x, t1.y⟩).isNone)
          = rest.filter (fun t1 => (visitedGet V ⟨t1.x, t1.y⟩).isNone) := by
        apply List.filter_congr
        intro t1 h1
        have hne := (List.pairwise_cons.1 hpw).1 t1 h1
        rcases hcv : visitedGet V ⟨t1.x, t1.y⟩ with _ | rc
        · rw [visitedGet_append_right _ _ _ hcv, visitedGet_singleton,
            if_neg (by rw [Coord.mk.injEq]; exact fun hkk => hne hkk)]
        · rw [visitedGet_append_left _ _ _ rc hcv]
      rw [hfilter]
      have hfc : (t :: rest).filter
            (fun t1 => (visitedGet V ⟨t1.x, t1.y⟩).isNone)
          = t :: rest.filter (fun t1 => (visitedGet V ⟨t1.x, t1.y⟩).isNone) :=
        List.filter_cons_of_pos (by rw [hv]; rfl)
      rw [hfc]
      simp
    · -- already visited with a nonnegative budget: skipped
      rw [processNeighbor_rem1 s w h uid u hmap hunits cur hrem ⟨V, R, Q⟩ t ht
        (by intro r0 hr; exact hV _ r0 hr)
        (by intro hnone; rw [hv] at hnone; exact absurd hnone (by simp))]
      rw [if_neg (by rw [hv]; simp)]
      have hfc : (t :: rest).filter
            (fun t1 => (visitedGet V ⟨t1.x, t1.y⟩).isNone)
          = rest.filter (fun t1 => (visitedGet V ⟨t1.x, t1.y⟩).isNone) :=
        List.filter_cons_of_neg (by rw [hv]; simp)
      rw [hfc]
      exact ih V R Q htr (List.pairwise_cons.1 hpw).2 hV hRV hstart

theorem foldl_rem2 (s : GameState) (w h : Int) (uid : String)
    (u : UnitInstance) (hmap : s.map = GameMap.create w h .field)
    (hunits : s.units = [(uid, u)])
    (cur : QueueEntry) (hrem : cur.remaining = 2) :
    ∀ (ts : List Tile) (V : List (Coord × Int)) (R : List Coord)
      (Q : List QueueEntry),
    (∀ t ∈ ts, 0 ≤ t.x ∧ t.x < w ∧ 0 ≤ t.y ∧ t.y < h) →
    (ts.Pairwise fun a b => ¬(a.x = b.x ∧ a.y = b.y)) →
    (∀ t ∈ ts, visitedGet V ⟨t.x, t.y⟩ = none) →
    (∀ t ∈ ts, ¬(u.x = t.x ∧ u.y = t.y)) →
    (∀ t ∈ ts, (⟨t.x, t.y⟩ : Coord) ∉ R) →
    ts.foldl (GameState.processNeighbor s u cur) ⟨V, R, Q⟩
      = ⟨V ++ ts.map (fun t => (⟨t.x, t.y⟩, 1)),
         R ++ ts.map (fun t => ⟨t.x, t.y⟩),
         Q ++ ts.map (fun t => ⟨t.x, t.y, 1⟩)⟩ := by
  intro ts
  induction ts with
  | nil => intro V R Q _ _ _ _ _; simp
  | cons t rest ih =>
    intro V R Q hts hpw hlook hocc hR
    have ht := hts t (List.mem_cons_self t rest)
    have hv := hlook t (List.mem_cons_self t rest)
    rw [List.foldl_cons]
    rw [processNeighbor_rem2 s w h uid u hmap hunits cur hrem ⟨V, R, Q⟩ t ht hv
      (hocc t (List.mem_cons_self t rest))]
    rw [visitedSet_eq_append V ⟨t.x, t.y⟩ 1 hv,
      reachAdd_eq_append R _ (hR t (List.mem_cons_self t rest))]
    have step := ih (V ++ [(⟨t.x, t.y⟩, 1)]) (R ++ [⟨t.x, t.y⟩])
      (Q ++ [⟨t.x, t.y, 1⟩])
      (fun t1 h1 => hts t1 (List.mem_cons_of_mem t h1))
      (List.pairwise_cons.1 hpw).2
      (by
        intro t1 h1
        have hne := (List.pairwise_cons.1 hpw).1 t1 h1
        rw [visitedGet_append_right _ _ _ (hlook t1 (List.mem_cons_of_mem t h1)),
          visitedGet_singleton,
          if_neg (by rw [Coord.mk.injEq]; exact fun hkk => hne hkk)]
      )
      (fun t1 h1 => hocc t1 (List.mem_cons_of_mem t h1))
      (by
        intro t1 h1
        have hne := (List.pairwise_cons.1 hpw).1 t1 h1
        intro hmem
        rcases List.mem_append.1 hmem with hm | hm
        · exact (hR t1 (List.mem_cons_of_mem t h1)) hm
        · rw [List.mem_singleton, Coord.mk.injEq] at hm
          exact hne ⟨hm.1.symm, hm.2.symm⟩)
    rw [step]
    simp

theorem visitedGet_const_map (L : List Tile) (v : Int) (k : Coord) :
    visitedGet (L.map fun t => ((⟨t.x, t.y⟩ : Coord), v)) k
      = if k ∈ L.map (fun t => (⟨t.x, t.y⟩ : Coord)) then some v else none := by
  induction L with
  | nil => simp [visitedGet]
  | cons t rest ih =>
    simp only [List.map_cons, visitedGet, List.mem_cons]
    by_cases h1 : (⟨t.x, t.y⟩ : Coord) = k
    · rw [if_pos h1, if_pos (Or.inl h1.symm)]
    · rw [if_neg h1, ih]
      by_cases h2 : k ∈ rest.map fun t => (⟨t.x, t.y⟩ : Coord)
      · rw [if_pos h2, if_pos (Or.inr h2)]
      · rw [if_neg h2, if_neg (by rintro (h | h); exact h1 h.symm; exact h2 h)]

theorem bfsLoop_nil (s : GameState) (u : UnitInstance) (fuel : Nat)
    (V : List (Coord × Int)) (R : List Coord) :
    GameState.bfsLoop s u fuel ⟨V, R, []⟩ = R := by
  cases fuel <;> rfl

theorem bfsLoop_cons (s : GameState) (u : UnitInstance) (n : Nat)
    (V : List (Coord × Int)) (R : List Coord) (e : QueueEntry)
    (rest : List QueueEntry) :
    GameState.bfsLoop s u (n + 1) ⟨V, R, e :: rest⟩
      = GameState.bfsLoop s u n
          ((s.map.getNeighbors e.x e.y).foldl
            (GameState.processNeighbor s u e) ⟨V, R, rest⟩) := rfl

theorem mem_newsCoords (w h : Int) (V : List (Coord × Int)) (ex ey : Int)
    (p : Coord) :
    (p ∈ ((((GameMap.create w h .field).getNeighbors ex ey).filter
        fun t => (visitedGet V ⟨t.x, t.y⟩).isNone).map
          fun t => (⟨t.x, t.y⟩ : Coord)))
      ↔ (0 ≤ p.x ∧ p.x < w ∧ 0 ≤ p.y ∧ p.y < h
          ∧ visitedGet V p = none ∧ cheb p ⟨ex, ey⟩ = 1) := by
  simp only [List.mem_map, List.mem_filter, mem_getNeighbors_create,
    Option.isNone_iff_eq_none]
  constructor
  · rintro ⟨t, ⟨⟨h1, h2, h3, h4, _, hc⟩, hv⟩, hp⟩
    subst hp
    exact ⟨h1, h2, h3, h4, hv, hc⟩
  · intro hh
    obtain ⟨px, py⟩ := p
    obtain ⟨h1, h2, h3, h4, hv, hc⟩ := hh
    exact ⟨⟨.field, px, py⟩, ⟨⟨h1, h2, h3, h4, rfl, hc⟩, hv⟩, rfl⟩

set_option maxHeartbeats 3200000 in
theorem bfsLoop_drain (s : GameState) (w h : Int) (uid : String)
    (u : UnitInstance) (hmap : s.map = GameMap.create w h .field)
    (hunits : s.units = [(uid, u)]) :
    ∀ (q : List QueueEntry) (fuel : Nat) (V : List (Coord × Int))
      (R : List Coord),
    q.length ≤ fuel →
    (∀ e ∈ q, e.remaining = 1 ∧ 0 ≤ e.x ∧ e.x < w ∧ 0 ≤ e.y ∧ e.y < h) →
    (∀ k r, visitedGet V k = some r → 0 ≤ r) →
    (∀ c ∈ R, visitedGet V c ≠ none) →
    ((visitedGet V ⟨u.x, u.y⟩).isSome) →
    ∀ p : Coord,
      (p ∈ GameState.bfsLoop s u fuel ⟨V, R, q⟩
        ↔ p ∈ R ∨ (0 ≤ p.x ∧ p.x < w ∧ 0 ≤ p.y ∧ p.y < h
            ∧ visitedGet V p = none
            ∧ ∃ e ∈ q, cheb p ⟨e.x, e.y⟩ = 1)) := by
  intro q
  induction q with
  | nil =>
    intro fuel V R _ _ _ _ _ p
    rw [bfsLoop_nil]
    simp
  | cons e rest ih =>
    intro fuel V R hlen hq hV hRV hstart p
    have he := hq e (List.mem_cons_self e rest)
    cases fuel with
    | zero => rw [List.length_cons] at hlen; omega
    | succ n =>
      have hts : ∀ t ∈ (GameMap.create w h .field).getNeighbors e.x e.y,
          0 ≤ t.x ∧ t.x < w ∧ 0 ≤ t.y ∧ t.y < h := by
        intro t ht
        have hm := (mem_getNeighbors_create w h e.x e.y t).1 ht
        exact ⟨hm.1, hm.2.1, hm.2.2.1, hm.2.2.2.1⟩
      have hpw := getNeighbors_create_coords_pairwise w h e.x e.y
      rw [bfsLoop_cons, hmap,
        foldl_rem1 s w h uid u hmap hunits e he.1 _ V R rest hts hpw hV hRV
          hstart]
      have hlen1 : rest.length ≤ n := by
        rw [List.length_cons] at hlen; omega
      have hq1 := fun e1 he1 => hq e1 (List.mem_cons_of_mem e he1)
      have hV1 : ∀ k r,
          visitedGet (V ++ ((((GameMap.create w h .field).getNeighbors e.x
              e.y).filter fun t => (visitedGet V ⟨t.x, t.y⟩).isNone).map
                fun t => ((⟨t.x, t.y⟩ : Coord), 0))) k = some r → 0 ≤ r := by
        intro k r hkr
        rcases visitedGet_append_cases _ _ k r hkr with hk | ⟨_, hk⟩
        · exact hV k r hk
        · rw [visitedGet_const_map] at hk
          split_ifs at hk
          injection hk with hk
          omega
      have hRV1 : ∀ c ∈ R ++ ((((GameMap.create w h .field).getNeighbors e.x
            e.y).filter fun t => (visitedGet V ⟨t.x, t.y⟩).isNone).map
              fun t => (⟨t.x, t.y⟩ : Coord)),
          visitedGet (V ++ ((((GameMap.create w h .field).getNeighbors e.x
              e.y).filter fun t => (visitedGet V ⟨t.x, t.y⟩).isNone).map
                fun t => ((⟨t.x, t.y⟩ : Coord), 0))) c ≠ none := by
        intro c hc
        rcases List.mem_append.1 hc with hcm | hcm
        · rcases hv : visitedGet V c with _ | r
          · exact absurd hv (hRV c hcm)
          · rw [visitedGet_append_left _ _ _ _ hv]; simp
        · have hvn := ((mem_newsCoords w h V e.x e.y c).1 hcm).2.2.2.2.1
          rw [visitedGet_append_right _ _ _ hvn, visitedGet_const_map,
            if_pos hcm]
          simp
      have hstart1 : (visitedGet (V ++ ((((GameMap.create w
            h .field).getNeighbors e.x e.y).filter
              fun t => (visitedGet V ⟨t.x, t.y⟩).isNone).map
                fun t => ((⟨t.x, t.y⟩ : Coord), 0)))
            ⟨u.x, u.y⟩).isSome := by
        rcases Option.isSome_iff_exists.1 hstart with ⟨r, hr⟩
        rw [visitedGet_append_left _ _ _ _ hr]
        rfl
      rw [ih n _ _ hlen1 hq1 hV1 hRV1 hstart1 p]
      have ha : p ∈ R ++ ((((GameMap.create w h .field).getNeighbors e.x
            e.y).filter fun t => (visitedGet V ⟨t.x, t.y⟩).isNone).map
              fun t => (⟨t.x, t.y⟩ : Coord))
          ↔ p ∈ R ∨ p ∈ ((((GameMap.create w h .field).getNeighbors e.x
            e.y).filter fun t => (visitedGet V ⟨t.x, t.y⟩).isNone).map
              fun t => (⟨t.x, t.y⟩ : Coord)) := List.mem_append
      have hb : visitedGet (V ++ ((((GameMap.create w h .field).getNeighbors
            e.x e.y).filter fun t => (visitedGet V ⟨t.x, t.y⟩).isNone).map
              fun t => ((⟨t.x, t.y⟩ : Coord), 0))) p = none
          ↔ (visitedGet V p = none
              ∧ p ∉ ((((GameMap.create w h .field).getNeighbors e.x
                e.y).filter fun t => (visitedGet V ⟨t.x, t.y⟩).isNone).map
                  fun t => (⟨t.x, t.y⟩ : Coord))) := by
        rcases hv : visitedGet V p with _ | r
        · rw [visitedGet_append_right _ _ _ hv, visitedGet_const_map]
          by_cases hm : p ∈ ((((GameMap.create w h .field).getNeighbors e.x
              e.y).filter fun t => (visitedGet V ⟨t.x, t.y⟩).isNone).map
                fun t => (⟨t.x, t.y⟩ : Coord))
          · rw [if_pos hm]; simp [hm]
          · rw [if_neg hm]; simp [hm]
        · rw [visitedGet_append_left _ _ _ _ hv]; simp
      have hsplit : (∃ e1 ∈ e :: rest, cheb p ⟨e1.x, e1.y⟩ = 1)
          ↔ (cheb p ⟨e.x, e.y⟩ = 1
              ∨ ∃ e1 ∈ rest, cheb p ⟨e1.x, e1.y⟩ = 1) := by
        constructor
        · rintro ⟨e1, he1, hc⟩
          rcases List.mem_cons.1 he1 with hh | hh
          · subst hh; exact Or.inl hc
          · exact Or.inr ⟨e1, hh, hc⟩
        · rintro (hc | ⟨e1, he1, hc⟩)
          · exact ⟨e, List.mem_cons_self e rest, hc⟩
          · exact ⟨e1, List.mem_cons_of_mem e he1, hc⟩
      rw [ha, hb, hsplit, mem_newsCoords]
      tauto

theorem coord_mk_eq_iff (a b : Int) (p : Coord) :
    ((⟨a, b⟩ : Coord) = p) ↔ (a = p.x ∧ b = p.y) := by
  obtain ⟨px, py⟩ := p
  rw [Coord.mk.injEq]

theorem mem_nbsCoords (w h ex ey : Int) (p : Coord) :
    (p ∈ ((GameMap.create w h .field).getNeighbors ex ey).map
        fun t => (⟨t.x, t.y⟩ : Coord))
      ↔ (0 ≤ p.x ∧ p.x < w ∧ 0 ≤ p.y ∧ p.y < h ∧ cheb p ⟨ex, ey⟩ = 1) := by
  simp only [List.mem_map, mem_getNeighbors_create]
  constructor
  · rintro ⟨t, ⟨h1, h2, h3, h4, _, hc⟩, hp⟩
    subst hp
    exact ⟨h1, h2, h3, h4, hc⟩
  · intro hh
    obtain ⟨px, py⟩ := p
    obtain ⟨h1, h2, h3, h4, hc⟩ := hh
    exact ⟨⟨.field, px, py⟩, ⟨h1, h2, h3, h4, rfl, hc⟩, rfl⟩

set_option maxHeartbeats 3200000 in
/-- **C5.**  On a map whose tiles are all field and which contains no
other unit, the movement range of the single unit is exactly: for
movement 1, the in-bounds king's-move (Chebyshev distance 1) neighbors
of the unit; for movement 2, the in-bounds tiles at Chebyshev distance 1
or 2 from the unit — in both cases the in-bounds tiles `p` with
`1 ≤ cheb p unit ≤ movement`, which excludes the unit's own tile and
gives 8 (movement 1) respectively 24 (movement 2) tiles at an interior
position and fewer at edges and corners. -/
theorem getMovementRange_open_terrain
    (s : GameState) (w h : Int) (uid : String) (u : UnitInstance)
    (hmap : s.map = GameMap.create w h .field)
    (hunits : s.units = [(uid, u)])
    (hux : 0 ≤ u.x) (huxw : u.x < w) (huy : 0 ≤ u.y) (huyh : u.y < h)
    (hmov : u.movement = 1 ∨ u.movement = 2) (p : Coord) :
    p ∈ s.getMovementRange uid
      ↔ (0 ≤ p.x ∧ p.x < w ∧ 0 ≤ p.y ∧ p.y < h
          ∧ 1 ≤ cheb p ⟨u.x, u.y⟩
          ∧ (cheb p ⟨u.x, u.y⟩ : Int) ≤ u.movement) := by
  have hts : ∀ t ∈ (GameMap.create w h .field).getNeighbors u.x u.y,
      0 ≤ t.x ∧ t.x < w ∧ 0 ≤ t.y ∧ t.y < h := by
    intro t ht
    have hmv := (mem_getNeighbors_create w h u.x u.y t).1 ht
    exact ⟨hmv.1, hmv.2.1, hmv.2.2.1, hmv.2.2.2.1⟩
  have hpw := getNeighbors_create_coords_pairwise w h u.x u.y
  rcases hmov with hm | hm
  · simp only [GameState.getMovementRange, hunits, unitsGet_single,
      GameState.bfsFuel, hm]
    rw [bfsLoop_cons]
    rw [show (⟨u.x, u.y, (1 : Int)⟩ : QueueEntry).x = u.x from rfl,
      show (⟨u.x, u.y, (1 : Int)⟩ : QueueEntry).y = u.y from rfl]
    rw [hmap]
    have hV0 : ∀ k r,
        visitedGet [((⟨u.x, u.y⟩ : Coord), (1 : Int))] k = some r → 0 ≤ r := by
      intro k r hk
      rw [visitedGet_singleton] at hk
      split_ifs at hk
      injection hk with hk
      omega
    have hRV0 : ∀ c ∈ ([] : List Coord),
        visitedGet [((⟨u.x, u.y⟩ : Coord), (1 : Int))] c ≠ none := by
      intro c hc
      exact absurd hc (List.not_mem_nil c)
    have hstart0 :
        (visitedGet [((⟨u.x, u.y⟩ : Coord), (1 : Int))] ⟨u.x, u.y⟩).isSome := by
      rw [visitedGet_singleton, if_pos rfl]
      rfl
    rw [foldl_rem1 s w h uid u hmap hunits ⟨u.x, u.y, 1⟩ rfl _ _ _ _
      hts hpw hV0 hRV0 hstart0]
    rw [bfsLoop_nil, List.nil_append, mem_newsCoords]
    have hnone : (visitedGet [((⟨u.x, u.y⟩ : Coord), (1 : Int))] p = none)
        ↔ ¬(u.x = p.x ∧ u.y = p.y) := by
      rw [visitedGet_singleton]
      by_cases hc : (⟨u.x, u.y⟩ : Coord) = p
      · rw [if_pos hc]
        exact ⟨fun hk => Option.noConfusion hk,
          fun hk => absurd ((coord_mk_eq_iff u.x u.y p).1 hc) hk⟩
      · rw [if_neg hc]
        exact ⟨fun _ hk => hc ((coord_mk_eq_iff u.x u.y p).2 hk),
          fun _ => rfl⟩
    rw [hnone]
    have hch : cheb p ⟨u.x, u.y⟩
        = max (p.x - u.x).natAbs (p.y - u.y).natAbs := rfl
    rw [hch]
    constructor
    · rintro ⟨h1, h2, h3, h4, h5, h6⟩
      exact ⟨h1, h2, h3, h4, by omega, by omega⟩
    · rintro ⟨h1, h2, h3, h4, h5, h6⟩
      exact ⟨h1, h2, h3, h4, by omega, by omega⟩
  · simp only [GameState.getMovementRange, hunits, unitsGet_single,
      GameState.bfsFuel, hm]
    rw [bfsLoop_cons]
    rw [show (⟨u.x, u.y, (2 : Int)⟩ : QueueEntry).x = u.x from rfl,
      show (⟨u.x, u.y, (2 : Int)⟩ : QueueEntry).y = u.y from rfl]
    rw [hmap]
    have hlookV0 : ∀ t ∈ (GameMap.create w h .field).getNeighbors u.x u.y,
        visitedGet [((⟨u.x, u.y⟩ : Coord), (2 : Int))] ⟨t.x, t.y⟩ = none := by
      intro t ht
      have hc : max (t.x - u.x).natAbs (t.y - u.y).natAbs = 1 :=
        ((mem_getNeighbors_create w h u.x u.y t).1 ht).2.2.2.2.2
      have hne : ¬((⟨u.x, u.y⟩ : Coord) = ⟨t.x, t.y⟩) := by
        intro he
        have h1 : u.x = t.x := ((coord_mk_eq_iff u.x u.y ⟨t.x, t.y⟩).1 he).1
        have h2 : u.y = t.y := ((coord_mk_eq_iff u.x u.y ⟨t.x, t.y⟩).1 he).2
        omega
      rw [visitedGet_singleton, if_neg hne]
    have hoccV0 : ∀ t ∈ (GameMap.create w h .field).getNeighbors u.x u.y,
        ¬(u.x = t.x ∧ u.y = t.y) := by
      intro t ht
      have hc : max (t.x - u.x).natAbs (t.y - u.y).natAbs = 1 :=
        ((mem_getNeighbors_create w h u.x u.y t).1 ht).2.2.2.2.2
      omega
    have hR0 : ∀ t ∈ (GameMap.create w h .field).getNeighbors u.x u.y,
        ((⟨t.x, t.y⟩ : Coord) ∉ ([] : List Coord)) := by
      intro t _ hc
      exact absurd hc (List.not_mem_nil _)
    rw [foldl_rem2 s w h uid u hmap hunits ⟨u.x, u.y, 2⟩ rfl _ _ _ _
      hts hpw hlookV0 hoccV0 hR0]
    simp only [List.nil_append]
    have hlen2 : ((((GameMap.create w h .field).getNeighbors u.x u.y).map
          (fun t => (⟨t.x, t.y, 1⟩ : QueueEntry))).length)
        ≤ ((GameMap.create w h .field).width.toNat
            * (GameMap.create w h .field).height.toNat + 1)
          * ((2 : Int).toNat + 2) := by
      rw [List.length_map]
      have h8 : ((GameMap.create w h .field).getNeighbors u.x u.y).length
          ≤ 8 := by
        have hfm := List.length_filterMap_le
          (fun d => (GameMap.create w h .field).getTile (u.x + d.1) (u.y + d.2))
          GameMap.neighborDeltas
        have hlen8 : GameMap.neighborDeltas.length = 8 := rfl
        rw [hlen8] at hfm
        exact hfm
      have hK : ((GameMap.create w h .field).width.toNat
            * (GameMap.create w h .field).height.toNat + 1)
          * ((2 : Int).toNat + 2) = (w.toNat * h.toNat + 1) * 4 := rfl
      rw [hK]
      have hw0 : 0 < w.toNat := by omega
      have hh0 : 0 < h.toNat := by omega
      have hm1 : 0 < w.toNat * h.toNat := Nat.mul_pos hw0 hh0
      generalize hg : w.toNat * h.toNat = m at hm1 ⊢
      omega
    have hq2 : ∀ e ∈ (((GameMap.create w h .field).getNeighbors u.x u.y).map
          (fun t => (⟨t.x, t.y, 1⟩ : QueueEntry))),
        e.remaining = 1 ∧ 0 ≤ e.x ∧ e.x < w ∧ 0 ≤ e.y ∧ e.y < h := by
      intro e he
      rcases List.mem_map.1 he with ⟨t, ht, rfl⟩
      have hmv := (mem_getNeighbors_create w h u.x u.y t).1 ht
      exact ⟨rfl, hmv.1, hmv.2.1, hmv.2.2.1, hmv.2.2.2.1⟩
    have hV2 : ∀ k r, visitedGet ([((⟨u.x, u.y⟩ : Coord), (2 : Int))]
          ++ ((GameMap.create w h .field).getNeighbors u.x u.y).map
            (fun t => ((⟨t.x, t.y⟩ : Coord), (1 : Int)))) k = some r →
        0 ≤ r := by
      intro k r hk
      rcases visitedGet_append_cases _ _ k r hk with hk1 | ⟨_, hk1⟩
      · rw [visitedGet_singleton] at hk1
        split_ifs at hk1
        injection hk1 with hk1
        omega
      · rw [visitedGet_const_map] at hk1
        split_ifs at hk1
        injection hk1 with hk1
        omega
    have hRV2 : ∀ c ∈ ((GameMap.create w h .field).getNeighbors u.x u.y).map
          (fun t => (⟨t.x, t.y⟩ : Coord)),
        visitedGet ([((⟨u.x, u.y⟩ : Coord), (2 : Int))]
          ++ ((GameMap.create w h .field).getNeighbors u.x u.y).map
            (fun t => ((⟨t.x, t.y⟩ : Coord), (1 : Int)))) c ≠ none := by
      intro c hc
      by_cases hs : (⟨u.x, u.y⟩ : Coord) = c
      · rw [visitedGet_append_left _ _ _ 2
          (by rw [visitedGet_singleton, if_pos hs])]
        exact fun hk => Option.noConfusion hk
      · rw [visitedGet_append_right _ _ _
          (by rw [visitedGet_singleton, if_neg hs]),
          visitedGet_const_map, if_pos hc]
        exact fun hk => Option.noConfusion hk
    have hstart2 : (visitedGet ([((⟨u.x, u.y⟩ : Coord), (2 : Int))]
          ++ ((GameMap.create w h .field).getNeighbors u.x u.y).map
            (fun t => ((⟨t.x, t.y⟩ : Coord), (1 : Int))))
          ⟨u.x, u.y⟩).isSome := by
      rw [visitedGet_append_left _ _ _ 2
        (by rw [visitedGet_singleton, if_pos rfl])]
      rfl
    rw [bfsLoop_drain s w h uid u hmap hunits _ _ _ _
      hlen2 hq2 hV2 hRV2 hstart2 p]
    have hbv : visitedGet ([((⟨u.x, u.y⟩ : Coord), (2 : Int))]
          ++ ((GameMap.create w h .field).getNeighbors u.x u.y).map
            (fun t => ((⟨t.x, t.y⟩ : Coord), (1 : Int)))) p = none
        ↔ (¬((⟨u.x, u.y⟩ : Coord) = p)
            ∧ p ∉ ((GameMap.create w h .field).getNeighbors u.x u.y).map
              (fun t => (⟨t.x, t.y⟩ : Coord))) := by
      by_cases hs : (⟨u.x, u.y⟩ : Coord) = p
      · rw [visitedGet_append_left _ _ _ 2
          (by rw [visitedGet_singleton, if_pos hs])]
        exact ⟨fun hk => Option.noConfusion hk, fun hk => absurd hs hk.1⟩
      · rw [visitedGet_append_right _ _ _
          (by rw [visitedGet_singleton, if_neg hs]),
          visitedGet_const_map]
        by_cases hmem : p ∈ ((GameMap.create w h .field).getNeighbors u.x
            u.y).map (fun t => (⟨t.x, t.y⟩ : Coord))
        · rw [if_pos hmem]
          exact ⟨fun hk => Option.noConfusion hk, fun hk => absurd hmem hk.2⟩
        · rw [if_neg hmem]
          exact ⟨fun _ => ⟨hs, hmem⟩, fun _ => rfl⟩
    have hex : (∃ e ∈ (((GameMap.create w h .field).getNeighbors u.x
            u.y).map (fun t => (⟨t.x, t.y, 1⟩ : QueueEntry))),
          cheb p ⟨e.x, e.y⟩ = 1)
        ↔ (∃ t ∈ (GameMap.create w h .field).getNeighbors u.x u.y,
            cheb p ⟨t.x, t.y⟩ = 1) := by
      constructor
      · rintro ⟨e, he, hc⟩
        rcases List.mem_map.1 he with ⟨t, ht, rfl⟩
        exact ⟨t, ht, hc⟩
      · rintro ⟨t, ht, hc⟩
        exact ⟨⟨t.x, t.y, 1⟩, List.mem_map_of_mem _ ht, hc⟩
    rw [hbv, hex, mem_nbsCoords, coord_mk_eq_iff]
    have hch : cheb p ⟨u.x, u.y⟩
        = max (p.x - u.x).natAbs (p.y - u.y).natAbs := rfl
    rw [hch]
    constructor
    · rintro (⟨h1, h2, h3, h4, h5⟩ | ⟨h1, h2, h3, h4, ⟨hne, _⟩, t, ht, hct⟩)
      · exact ⟨h1, h2, h3, h4, by omega, by omega⟩
      · have hmv := (mem_getNeighbors_create w h u.x u.y t).1 ht
        have htc : max (t.x - u.x).natAbs (t.y - u.y).natAbs = 1 :=
          hmv.2.2.2.2.2
        have hpc : max (p.x - t.x).natAbs (p.y - t.y).natAbs = 1 := hct
        exact ⟨h1, h2, h3, h4, by omega, by omega⟩
    · rintro ⟨h1, h2, h3, h4, h5, h6⟩
      by_cases hc1 : max (p.x - u.x).natAbs (p.y - u.y).natAbs = 1
      · exact Or.inl ⟨h1, h2, h3, h4, hc1⟩
      · refine Or.inr ⟨h1, h2, h3, h4, ⟨by omega, ?_⟩, ?_⟩
        · rintro ⟨_, _, _, _, hcc⟩
          exact hc1 hcc
        · obtain ⟨tx, ty, htb1, htb2, htb3, htb4, htc, hpc⟩ :
              ∃ tx ty : Int, 0 ≤ tx ∧ tx < w ∧ 0 ≤ ty ∧ ty < h
                ∧ max (tx - u.x).natAbs (ty - u.y).natAbs = 1
                ∧ max (p.x - tx).natAbs (p.y - ty).natAbs = 1 := by
            refine ⟨u.x + max (-1) (min 1 (p.x - u.x)),
              u.y + max (-1) (min 1 (p.y - u.y)),
              ?_, ?_, ?_, ?_, ?_, ?_⟩ <;> omega
          exact ⟨⟨.field, tx, ty⟩,
            (mem_getNeighbors_create w h u.x u.y ⟨.field, tx, ty⟩).2
              ⟨htb1, htb2, htb3, htb4, rfl, htc⟩, hpc⟩

/-- A 3×3 all-field board whose only unit is a movement-1 warrior at the
center. -/
def openState : GameState :=
  ((GameState.init fieldMap3 testConfig).addUnit
    (createUnit .warrior 0 1 1 1).1).2

/-- Witness for C5: on the 3×3 all-field board with a single movement-1
warrior at (1,1), the corner (0,0) — an in-bounds king's-move
neighbor — is in the movement range. -/
theorem getMovementRange_open_terrain_witness :
    (⟨0, 0⟩ : Coord) ∈ openState.getMovementRange "unit-1" :=
  (getMovementRange_open_terrain openState 3 3 "unit-1"
      (createUnit .warrior 0 1 1 1).1 rfl (by decide) (by decide) (by decide)
      (by decide) (by decide) (Or.inl (by decide)) ⟨0, 0⟩).2 (by decide)

/-- Witness for the winner invariant: a state whose winner is already 0
keeps winner 0 across an end-turn, a unit move and a unit removal. -/
theorem winner_immutable_witness :
    (([Op.endTurn, Op.moveUnit "unit-1" 1 0, Op.removeUnit "unit-1"].foldl
        applyOp { walledCityState with winner := 0 }).getWinner) = 0 :=
  winner_immutable { walledCityState with winner := 0 } 0 rfl (by decide)
    [Op.endTurn, Op.moveUnit "unit-1" 1 0, Op.removeUnit "unit-1"]

end Polyclone
